import Mathlib

/-!
Verification development for the diverge-mvp backend (three Express server
variants).  JavaScript values flowing through the request handlers are
modelled by the inductive type `Json`; numbers are kept as their raw JSON
numeral text, since no handler ever inspects a numeric value beyond
truthiness.  Strings are modelled as Lean strings over code points; every
input exercised by the handlers in this development is ASCII, where code
points and JavaScript UTF-16 code units coincide.
-/

set_option autoImplicit false
set_option maxRecDepth 8192

namespace Diverge

/-- A JSON/JavaScript value as seen by the request handlers. -/
inductive Json where
  | null : Json
  | bool (b : Bool) : Json
  | num (raw : String) : Json
  | str (s : String) : Json
  | arr (elems : List Json) : Json
  | obj (fields : List (String × Json)) : Json
deriving Repr, Inhabited

mutual

/-- Structural boolean equality on JSON values. -/
def beqJson : Json → Json → Bool
  | .null, .null => true
  | .bool a, .bool b => a == b
  | .num a, .num b => a == b
  | .str a, .str b => a == b
  | .arr xs, .arr ys => beqJsonList xs ys
  | .obj xs, .obj ys => beqJsonFields xs ys
  | _, _ => false

/-- Structural boolean equality on lists of JSON values. -/
def beqJsonList : List Json → List Json → Bool
  | [], [] => true
  | x :: xs, y :: ys => beqJson x y && beqJsonList xs ys
  | _, _ => false

/-- Structural boolean equality on object field lists. -/
def beqJsonFields : List (String × Json) → List (String × Json) → Bool
  | [], [] => true
  | (k1, v1) :: xs, (k2, v2) :: ys => k1 == k2 && beqJson v1 v2 && beqJsonFields xs ys
  | _, _ => false

end

/-- Custom induction principle for the nested inductive `Json`. -/
theorem Json.recurse (P : Json → Prop)
    (hnull : P .null) (hbool : ∀ b, P (.bool b))
    (hnum : ∀ s, P (.num s)) (hstr : ∀ s, P (.str s))
    (harr : ∀ xs, (∀ x ∈ xs, P x) → P (.arr xs))
    (hobj : ∀ fs, (∀ kv ∈ fs, P (Prod.snd kv)) → P (.obj fs)) :
    ∀ j, P j
  | .null => hnull
  | .bool b => hbool b
  | .num s => hnum s
  | .str s => hstr s
  | .arr xs => harr xs (fun x hx =>
      have : sizeOf x < 1 + sizeOf xs := by
        have h1 : sizeOf x < sizeOf xs := List.sizeOf_lt_of_mem hx
        omega
      Json.recurse P hnull hbool hnum hstr harr hobj x)
  | .obj fs => hobj fs (fun kv hkv =>
      have : sizeOf kv.2 < 1 + sizeOf fs := by
        have h1 : sizeOf kv < sizeOf fs := List.sizeOf_lt_of_mem hkv
        have h2 : sizeOf kv.2 < sizeOf kv := by
          obtain ⟨a, b⟩ := kv
          simp only [Prod.mk.sizeOf_spec]
          omega
        omega
      Json.recurse P hnull hbool hnum hstr harr hobj kv.2)
termination_by j => sizeOf j

theorem beqJson_refl : ∀ j : Json, beqJson j j = true := by
  intro j
  induction j using Json.recurse with
  | hnull => rfl
  | hbool b => simp [beqJson]
  | hnum s => simp [beqJson]
  | hstr s => simp [beqJson]
  | harr xs ih =>
    simp only [beqJson]
    induction xs with
    | nil => rfl
    | cons x xs2 ih2 =>
      simp only [beqJsonList, Bool.and_eq_true]
      exact ⟨ih x (by simp), ih2 (fun x hx => ih x (by simp [hx]))⟩
  | hobj fs ih =>
    simp only [beqJson]
    induction fs with
    | nil => rfl
    | cons kv fs2 ih2 =>
      obtain ⟨k, v⟩ := kv
      simp only [beqJsonFields, Bool.and_eq_true]
      exact ⟨⟨by simp, ih (k, v) (by simp)⟩, ih2 (fun kv hkv => ih kv (by simp [hkv]))⟩

theorem eq_of_beqJson : ∀ a b : Json, beqJson a b = true → a = b := by
  intro a
  induction a using Json.recurse with
  | hnull => intro b h; cases b <;> simp_all [beqJson]
  | hbool x => intro b h; cases b <;> simp_all [beqJson]
  | hnum x => intro b h; cases b <;> simp_all [beqJson]
  | hstr x => intro b h; cases b <;> simp_all [beqJson]
  | harr xs ih =>
    intro b h
    cases b with
    | arr ys =>
      suffices hs : xs = ys by rw [hs]
      have hl : beqJsonList xs ys = true := by simpa [beqJson] using h
      clear h
      induction xs generalizing ys with
      | nil => cases ys with
        | nil => rfl
        | cons y ys2 => simp [beqJsonList] at hl
      | cons x xs2 ih2 =>
        cases ys with
        | nil => simp [beqJsonList] at hl
        | cons y ys2 =>
          simp only [beqJsonList, Bool.and_eq_true] at hl
          have h1 : x = y := ih x (by simp) y hl.1
          have h2 : xs2 = ys2 :=
            ih2 (fun x hx => ih x (by simp [hx])) ys2 hl.2
          rw [h1, h2]
    | null => simp [beqJson] at h
    | bool _ => simp [beqJson] at h
    | num _ => simp [beqJson] at h
    | str _ => simp [beqJson] at h
    | obj _ => simp [beqJson] at h
  | hobj fs ih =>
    intro b h
    cases b with
    | obj gs =>
      suffices hs : fs = gs by rw [hs]
      have hl : beqJsonFields fs gs = true := by simpa [beqJson] using h
      clear h
      induction fs generalizing gs with
      | nil => cases gs with
        | nil => rfl
        | cons g gs2 => simp [beqJsonFields] at hl
      | cons kv fs2 ih2 =>
        obtain ⟨k, v⟩ := kv
        cases gs with
        | nil => simp [beqJsonFields] at hl
        | cons g gs2 =>
          obtain ⟨k2, v2⟩ := g
          simp only [beqJsonFields, Bool.and_eq_true] at hl
          have hk : k = k2 := by simpa using hl.1.1
          have hv : v = v2 := ih (k, v) (by simp) v2 hl.1.2
          have ht : fs2 = gs2 :=
            ih2 (fun kv hkv => ih kv (by simp [hkv])) gs2 hl.2
          rw [hk, hv, ht]
    | null => simp [beqJson] at h
    | bool _ => simp [beqJson] at h
    | num _ => simp [beqJson] at h
    | str _ => simp [beqJson] at h
    | arr _ => simp [beqJson] at h

instance : DecidableEq Json := fun a b =>
  decidable_of_iff (beqJson a b = true)
    ⟨eq_of_beqJson a b, fun h => h ▸ beqJson_refl a⟩

/-- A JSON numeral denotes zero exactly when every digit of its mantissa
(the part before any exponent marker) is 0. -/
def jsNumIsZero (raw : String) : Bool :=
  (raw.data.takeWhile (fun c => c ≠ 'e' ∧ c ≠ 'E')).all
    (fun c => !c.isDigit || c = '0')

/-- JavaScript truthiness of a JSON value. -/
def jsTruthy : Json → Bool
  | .null => false
  | .bool b => b
  | .num raw => !jsNumIsZero raw
  | .str s => !(s == "")
  | .arr _ => true
  | .obj _ => true

/-- JavaScript String() coercion of a JSON value.  Arrays join their
elements with commas, null elements rendering as the empty string;
objects render as the fixed tag. -/
def jsToString : Json → String
  | .null => "null"
  | .bool true => "true"
  | .bool false => "false"
  | .num raw => raw
  | .str s => s
  | .obj _ => "[object Object]"
  | .arr xs => String.intercalate "," (jsToStringList xs)
where
  /-- Element-wise String() conversion used by Array.prototype.join:
  null renders as the empty string. -/
  jsToStringList : List Json → List String
  | [] => []
  | .null :: vs => "" :: jsToStringList vs
  | v :: vs => jsToString v :: jsToStringList vs

/-- Array.prototype.join with an explicit separator. -/
def jsJoin (sep : String) (xs : List Json) : String :=
  String.intercalate sep (jsToString.jsToStringList xs)

/-- JavaScript a || b on JSON values. -/
def jsOr (a b : Json) : Json :=
  if jsTruthy a then a else b

/-- s.slice(0, n) on a string. -/
def jsSlice0 (s : String) (n : Nat) : String :=
  String.mk (s.data.take n)

/-- clampString from the servers: falsy values become the empty string,
non-strings are returned as their String() coercion (without clamping),
and strings longer than the bound are sliced to exactly the bound. -/
def clampString (s : Json) (maxLen : Nat) : String :=
  if !jsTruthy s then ""
  else
    match s with
    | .str s2 => if s2.length > maxLen then jsSlice0 s2 maxLen else s2
    | v => jsToString v

/-- Property lookup on an object field list; the last binding of a key
wins, matching JavaScript assignment semantics. -/
def jsGetObj : List (String × Json) → String → Option Json
  | [], _ => none
  | (k0, v) :: rest, k =>
    match jsGetObj rest k with
    | some r => some r
    | none => if k0 = k then some v else none

/-- Optional-chaining property access v?.k: yields the field for objects
and undefined (none) for every other value. -/
def jsGetField : Json → String → Option Json
  | .obj fields, k => jsGetObj fields k
  | _, _ => none

/-! ### A model of JSON.parse

A strict recursive-descent parser for the JSON grammar, with a fuel
argument bounding recursion depth.  `parseJson` supplies ample fuel, so
fuel exhaustion never occurs on inputs whose nesting is bounded by their
length. -/

/-- JSON insignificant whitespace. -/
def isJsonWs (c : Char) : Bool :=
  c = ' ' || c = '\t' || c = '\n' || c = '\r'

/-- Drop leading JSON whitespace. -/
def skipWs : List Char → List Char
  | [] => []
  | c :: cs => if isJsonWs c then skipWs cs else c :: cs

/-- Value of a hexadecimal digit. -/
def hexVal (c : Char) : Option Nat :=
  if '0' ≤ c ∧ c ≤ '9' then some (c.toNat - '0'.toNat)
  else if 'a' ≤ c ∧ c ≤ 'f' then some (c.toNat - 'a'.toNat + 10)
  else if 'A' ≤ c ∧ c ≤ 'F' then some (c.toNat - 'A'.toNat + 10)
  else none

/-- Parse the body of a JSON string literal (after the opening quote),
returning the decoded characters and the rest of the input. -/
def parseStringChars : Nat → List Char → Option (List Char × List Char)
  | 0, _ => none
  | _, [] => none
  | fuel + 1, c :: cs =>
    if c = '"' then some ([], cs)
    else if c = '\\' then
      match cs with
      | [] => none
      | e :: cs2 =>
        if e = '"' then (parseStringChars fuel cs2).map (fun p => ('"' :: p.1, p.2))
        else if e = '\\' then (parseStringChars fuel cs2).map (fun p => ('\\' :: p.1, p.2))
        else if e = '/' then (parseStringChars fuel cs2).map (fun p => ('/' :: p.1, p.2))
        else if e = 'b' then (parseStringChars fuel cs2).map (fun p => ('\x08' :: p.1, p.2))
        else if e = 'f' then (parseStringChars fuel cs2).map (fun p => ('\x0c' :: p.1, p.2))
        else if e = 'n' then (parseStringChars fuel cs2).map (fun p => ('\n' :: p.1, p.2))
        else if e = 'r' then (parseStringChars fuel cs2).map (fun p => ('\r' :: p.1, p.2))
        else if e = 't' then (parseStringChars fuel cs2).map (fun p => ('\t' :: p.1, p.2))
        else if e = 'u' then
          match cs2 with
          | a :: b :: c2 :: d :: cs3 =>
            match hexVal a, hexVal b, hexVal c2, hexVal d with
            | some ha, some hb, some hc, some hd =>
              (parseStringChars fuel cs3).map
                (fun p => (Char.ofNat (((ha * 16 + hb) * 16 + hc) * 16 + hd) :: p.1, p.2))
            | _, _, _, _ => none
          | _ => none
        else none
    else if c.toNat < 0x20 then none
    else (parseStringChars fuel cs).map (fun p => (c :: p.1, p.2))

/-- Longest prefix of decimal digits. -/
def takeDigits (cs : List Char) : List Char × List Char :=
  (cs.takeWhile Char.isDigit, cs.dropWhile Char.isDigit)

/-- Parse the optional fraction part of a JSON number. -/
def parseFracPart : List Char → Option (List Char × List Char)
  | '.' :: r =>
    match takeDigits r with
    | ([], _) => none
    | (ds, r2) => some ('.' :: ds, r2)
  | cs => some ([], cs)

/-- Parse the optional exponent part of a JSON number. -/
def parseExpPart : List Char → Option (List Char × List Char)
  | [] => some ([], [])
  | e :: r =>
    if e = 'e' ∨ e = 'E' then
      let sr : List Char × List Char :=
        match r with
        | '+' :: t => (['+'], t)
        | '-' :: t => (['-'], t)
        | _ => ([], r)
      match takeDigits sr.2 with
      | ([], _) => none
      | (ds, r2) => some (e :: (sr.1 ++ ds), r2)
    else some ([], e :: r)

/-- Parse a JSON number (strict grammar), returning its raw text. -/
def parseNumberRaw (cs : List Char) : Option (List Char × List Char) :=
  let sp : List Char × List Char :=
    match cs with
    | '-' :: r => (['-'], r)
    | _ => ([], cs)
  match sp.2 with
  | [] => none
  | c :: rest =>
    if ¬ c.isDigit then none
    else
      let ip : List Char × List Char :=
        if c = '0' then ([c], rest) else takeDigits sp.2
      match parseFracPart ip.2 with
      | none => none
      | some (fr, cs3) =>
        match parseExpPart cs3 with
        | none => none
        | some (ex, cs4) => some (sp.1 ++ ip.1 ++ fr ++ ex, cs4)

/-- Set a key in an object field list, replacing in place if present. -/
def objSet : List (String × Json) → String → Json → List (String × Json)
  | [], k, v => [(k, v)]
  | (k0, v0) :: rest, k, v =>
    if k0 = k then (k0, v) :: rest else (k0, v0) :: objSet rest k v

/-- Collapse duplicate keys, keeping first-insertion order and the last
value, as JavaScript object construction does. -/
def objDedup (fields : List (String × Json)) : List (String × Json) :=
  fields.foldl (fun acc kv => objSet acc kv.1 kv.2) []

mutual

/-- Parse one JSON value (leading whitespace allowed). -/
def parseValue : Nat → List Char → Option (Json × List Char)
  | 0, _ => none
  | fuel + 1, cs =>
    match skipWs cs with
    | [] => none
    | c :: rest =>
      if c = 'n' then
        match rest with
        | 'u' :: 'l' :: 'l' :: r => some (.null, r)
        | _ => none
      else if c = 't' then
        match rest with
        | 'r' :: 'u' :: 'e' :: r => some (.bool true, r)
        | _ => none
      else if c = 'f' then
        match rest with
        | 'a' :: 'l' :: 's' :: 'e' :: r => some (.bool false, r)
        | _ => none
      else if c = '"' then
        (parseStringChars (fuel + 1) rest).map (fun p => (.str (String.mk p.1), p.2))
      else if c = '[' then
        match skipWs rest with
        | ']' :: r => some (.arr [], r)
        | cs2 => (parseElems fuel cs2).map (fun p => (.arr p.1, p.2))
      else if c = '\x7b' then
        match skipWs rest with
        | '\x7d' :: r => some (.obj [], r)
        | cs2 => (parseFields fuel cs2).map (fun p => (.obj (objDedup p.1), p.2))
      else
        (parseNumberRaw (c :: rest)).map (fun p => (.num (String.mk p.1), p.2))

/-- Parse one or more comma-separated array elements up to the closing
bracket. -/
def parseElems : Nat → List Char → Option (List Json × List Char)
  | 0, _ => none
  | fuel + 1, cs =>
    match parseValue fuel cs with
    | none => none
    | some (v, rest) =>
      match skipWs rest with
      | ',' :: r => (parseElems fuel r).map (fun p => (v :: p.1, p.2))
      | ']' :: r => some ([v], r)
      | _ => none

/-- Parse one or more comma-separated object members up to the closing
brace. -/
def parseFields : Nat → List Char → Option (List (String × Json) × List Char)
  | 0, _ => none
  | fuel + 1, cs =>
    match skipWs cs with
    | '"' :: rest =>
      match parseStringChars (fuel + 1) rest with
      | none => none
      | some (kcs, rest2) =>
        match skipWs rest2 with
        | ':' :: rest3 =>
          match parseValue fuel rest3 with
          | none => none
          | some (v, rest4) =>
            match skipWs rest4 with
            | ',' :: r => (parseFields fuel r).map (fun p => ((String.mk kcs, v) :: p.1, p.2))
            | '\x7d' :: r => some ([(String.mk kcs, v)], r)
            | _ => none
        | _ => none
    | _ => none

end

/-- JSON.parse: parse a complete JSON document, rejecting trailing
content other than whitespace. -/
def parseJson (s : String) : Option Json :=
  match parseValue (2 * s.data.length + 2) s.data with
  | some (v, rest) => if (skipWs rest).isEmpty then some v else none
  | none => none

/-! ### A model of JSON.stringify -/

/-- Escape one character for a JSON string literal, as JSON.stringify
does. -/
def escapeJsonChar (c : Char) : List Char :=
  if c = '"' then ['\\', '"']
  else if c = '\\' then ['\\', '\\']
  else if c = '\x08' then ['\\', 'b']
  else if c = '\x0c' then ['\\', 'f']
  else if c = '\n' then ['\\', 'n']
  else if c = '\r' then ['\\', 'r']
  else if c = '\t' then ['\\', 't']
  else if c.toNat < 0x20 then
    ['\\', 'u', '0', '0',
     if c.toNat < 16 then '0' else (Nat.toDigits 16 c.toNat).headI,
     (Nat.toDigits 16 c.toNat).getLastI]
  else [c]

/-- Escape a string body for a JSON string literal. -/
def escapeJsonStr : List Char → List Char
  | [] => []
  | c :: cs => escapeJsonChar c ++ escapeJsonStr cs

/-- Serialize a string as a JSON string literal. -/
def quoteJson (s : String) : String :=
  String.mk ('"' :: escapeJsonStr s.data ++ ['"'])

mutual

/-- JSON.stringify on a JSON value. -/
def jsonStringify : Json → String
  | .null => "null"
  | .bool true => "true"
  | .bool false => "false"
  | .num raw => raw
  | .str s => quoteJson s
  | .arr xs => "[" ++ String.intercalate "," (jsonStringifyList xs) ++ "]"
  | .obj fs => "\x7b" ++ String.intercalate "," (jsonStringifyFields fs) ++ "\x7d"

/-- Serialize array elements. -/
def jsonStringifyList : List Json → List String
  | [] => []
  | v :: vs => jsonStringify v :: jsonStringifyList vs

/-- Serialize object members. -/
def jsonStringifyFields : List (String × Json) → List String
  | [] => []
  | (k, v) :: fs => (quoteJson k ++ ":" ++ jsonStringify v) :: jsonStringifyFields fs

end

/-! ### Shared server configuration and response model -/

/-- Hard guard against runaway prompts, identical in all variants. -/
def MAX_INPUT_CHARS : Nat := 12000

/-- Token ceiling passed to the completion call, identical in all
variants. -/
def MAX_TOKENS : Nat := 450

/-- An HTTP JSON response: status code and response-body fields. -/
structure JsResponse where
  status : Nat
  body : List (String × Json)
deriving Repr, DecidableEq

/-- First index of a character in a list, if any. -/
def firstIdxOf : List Char → Char → Option Nat
  | [], _ => none
  | x :: rest, c =>
    if x = c then some 0 else (firstIdxOf rest c).map (· + 1)

/-- Last index of a character in a list, if any. -/
def lastIdxOf (cs : List Char) (c : Char) : Option Nat :=
  (firstIdxOf cs.reverse c).map (fun i => cs.length - 1 - i)

namespace Part001

/-- tryParseModelJson: attempt a direct JSON.parse; on failure slice from
the first opening brace to the last closing brace and parse that; `none`
models the thrown error. -/
def tryParseModelJson (raw : String) : Option Json :=
  match parseJson raw with
  | some v => some v
  | none =>
    let cs := raw.data
    match firstIdxOf cs '\x7b', lastIdxOf cs '\x7d' with
    | some st, some en =>
      if en > st then parseJson (String.mk ((cs.drop st).take (en + 1 - st)))
      else none
    | _, _ => none

/-- The hardcoded per-session stat counters. -/
structure Stats where
  health : Int
  reputation : Int
  money : Int
deriving Repr, DecidableEq

/-- A session record of the in-memory store. -/
structure Session where
  recent_memory : String
  stats : Stats
deriving Repr, DecidableEq

/-- The in-memory session store, keyed by the session_id value in
insertion order.  SameValueZero key comparison is modelled as structural
equality, which agrees with it on the string keys the server receives. -/
abbrev Sessions := List (Json × Session)

/-- The MVP hardcoded default stats. -/
def defaultStats : Stats := ⟨10, 0, 0⟩

/-- A freshly created session: empty memory and default stats. -/
def freshSession : Session := ⟨"", defaultStats⟩

/-- Map lookup over the session store. -/
def lookupSess : Sessions → Json → Option Session
  | [], _ => none
  | (k, s) :: rest, key => if k = key then some s else lookupSess rest key

/-- getSession: retrieve the session, lazily creating it (appended in
insertion order) when absent.  Returns the record and the updated
store. -/
def getSession (sessions : Sessions) (key : Json) : Session × Sessions :=
  match lookupSess sessions key with
  | some s => (s, sessions)
  | none => (freshSession, sessions ++ [(key, freshSession)])

/-- Overwrite a session record in the store. -/
def setSess : Sessions → Json → Session → Sessions
  | [], k, s => [(k, s)]
  | (k0, s0) :: rest, k, s =>
    if k0 = k then (k0, s) :: rest else (k0, s0) :: setSess rest k s

/-- The recent memory observable for a key: empty for absent sessions. -/
def memOf (sessions : Sessions) (key : Json) : String :=
  ((lookupSess sessions key).map Session.recent_memory).getD ""

/-- Serialization of the stats snapshot included in 200 responses. -/
def statsToJson (st : Stats) : Json :=
  Json.obj [("health", Json.num (toString st.health)),
            ("reputation", Json.num (toString st.reputation)),
            ("money", Json.num (toString st.money))]

/-- Result of one /generate request: the HTTP response, the session
store afterwards, and the prompts sent to the completion API. -/
structure GenResult where
  response : JsResponse
  sessions : Sessions
  calls : List String
deriving Repr, DecidableEq

/-- The required request fields, in validation order. -/
def requiredFields : List String :=
  ["scene_type", "event_id", "world_summary", "event_card", "recent_memory", "player_input"]

/-- validateGenerateBody of the structured-JSON variant: first missing
required field, then the scene_type enumeration. -/
def validateGenerateBody (body : List (String × Json)) : Option String :=
  match requiredFields.find? (fun k => (jsGetObj body k).isNone) with
  | some k => some ("Missing field: " ++ k)
  | none =>
    match jsGetObj body "scene_type" with
    | some (Json.str s) =>
      if s = "choice_point" ∨ s = "narration" then none
      else some "scene_type must be \x27choice_point\x27 or \x27narration\x27"
    | _ => some "scene_type must be \x27choice_point\x27 or \x27narration\x27"

/-- The session identifier: the request value, defaulting to "demo" when
the field is absent. -/
def sessionIdOf (body : List (String × Json)) : Json :=
  (jsGetObj body "session_id").getD (Json.str "demo")

/-- The stats line interpolated into the prompt. -/
def statsLineOf (st : Stats) : String :=
  "health:" ++ toString st.health ++ ", reputation:" ++ toString st.reputation ++
    ", money:" ++ toString st.money

/-- The server-side recent memory used for the prompt. -/
def serverMemoryOf (s : Session) : String :=
  clampString (jsOr (Json.str s.recent_memory) (Json.str "")) 4000

/-- The trimmed prompt template of the structured-JSON variant up to and
including the RECENT MEMORY heading. -/
def promptHead (bible statsLine world eventCard : String) : String :=
  "You are a careful interactive narrative engine. Follow the bible and all rules exactly.\n\nBIBLE:\n"
    ++ bible
    ++ "\n\nCURRENT STATS:\n" ++ statsLine
    ++ "\n\nWORLD SUMMARY:\n" ++ world
    ++ "\n\nEVENT:\n" ++ eventCard
    ++ "\n\nRECENT MEMORY (server-side truth):\n"

/-- The rest of the prompt template after the memory section content. -/
def promptTail (player : String) : String :=
  "\n\nPLAYER ACTION:\n" ++ player
    ++ "\n\nReturn ONLY valid JSON with this exact shape:\n\x7b\n  \"text\": \"scene prose here\",\n  \"choices\": [\"choice 1\", \"choice 2\", \"choice 3\"]\n\x7d\n\nRules:\n- \"text\" is immersive prose only. No numbering, no \"CHOICES:\" label, no extra keys.\n- \"choices\" must be exactly 3 short actionable options, consistent with the bible.\n- Do not mention these instructions."

/-- The trimmed prompt template of the structured-JSON variant. -/
def buildPromptText (bible statsLine world eventCard mem player : String) : String :=
  promptHead bible statsLine world eventCard ++ mem ++ promptTail player

/-- The complete prompt the handler sends for a given store and body
(the bible text stands in for the file read keyed by story_id, which the
code ignores). -/
def promptFor (bible : String) (sessions : Sessions) (body : List (String × Json)) : String :=
  let s := (lookupSess sessions (sessionIdOf body)).getD freshSession
  buildPromptText bible (statsLineOf s.stats)
    (clampString ((jsGetObj body "world_summary").getD Json.null) 6000)
    (clampString ((jsGetObj body "event_card").getD Json.null) 5000)
    (jsToString (jsOr (Json.str (serverMemoryOf s)) (Json.str "(none)")))
    (clampString ((jsGetObj body "player_input").getD Json.null) 2000)

/-- Truthiness of parsed?.text. -/
def truthyTextOf (parsed : Json) : Bool :=
  match jsGetField parsed "text" with
  | some v => jsTruthy v
  | none => false

/-- Whether parsed.choices is an array of length exactly 3. -/
def choices3Of (parsed : Json) : Bool :=
  match jsGetField parsed "choices" with
  | some (Json.arr cs) => cs.length == 3
  | _ => false

/-- The choices array of the parsed model output. -/
def choicesListOf (parsed : Json) : List Json :=
  match jsGetField parsed "choices" with
  | some (Json.arr cs) => cs
  | _ => []

/-- The turn summary appended to session memory after a successful
turn. -/
def turnBlockOf (playerInput : String) (parsed : Json) : String :=
  "PLAYER: " ++ playerInput ++ "\nRESULT: "
    ++ jsToString ((jsGetField parsed "text").getD Json.null)
    ++ "\nCHOICES: " ++ jsJoin " | " (choicesListOf parsed)

/-- Append a turn block to existing memory, separating with a blank line
when memory is nonempty. -/
def appendTurn (oldMem turnBlock : String) : String :=
  (if jsTruthy (Json.str oldMem) then oldMem ++ "\n\n" else "") ++ turnBlock

/-- The successful tail of the handler: update the session memory and
build the 200 response. -/
def finishTurn (sessions1 : Sessions) (sid : Json) (s : Session) (prompt : String)
    (body : List (String × Json)) (parsed : Json) : GenResult :=
  let tb := turnBlockOf (clampString ((jsGetObj body "player_input").getD Json.null) 2000) parsed
  let newMem := clampString (Json.str (appendTurn s.recent_memory tb)) 4000
  { response := ⟨200, [("session_id", sid),
        ("text", (jsGetField parsed "text").getD Json.null),
        ("choices", Json.arr (choicesListOf parsed)),
        ("stats", statsToJson s.stats)]⟩
    sessions := setSess sessions1 sid ⟨newMem, s.stats⟩
    calls := [prompt] }

/-- The handler after validation and the size guard: session retrieval,
completion call, recovery parsing, shape check, memory update. -/
def generateCore (bible : String) (sessions : Sessions) (body : List (String × Json))
    (callModel : String → Except String (Option String)) : GenResult :=
  let sid := sessionIdOf body
  let gs := getSession sessions sid
  let s := gs.1
  let sessions1 := gs.2
  let prompt := promptFor bible sessions body
  match callModel prompt with
  | .error _ => ⟨⟨500, [("error", Json.str "server error")]⟩, sessions1, [prompt]⟩
  | .ok content =>
    let raw := content.getD ""
    match tryParseModelJson raw with
    | none =>
      ⟨⟨500, [("error", Json.str "Model did not return valid JSON"),
              ("raw", Json.str raw)]⟩, sessions1, [prompt]⟩
    | some parsed =>
      if !truthyTextOf parsed || !choices3Of parsed then
        ⟨⟨500, [("error", Json.str "Bad JSON shape from model"),
                ("parsed", parsed), ("raw", Json.str raw)]⟩, sessions1, [prompt]⟩
      else finishTurn sessions1 sid s prompt body parsed

/-- POST /generate of the structured-JSON variant. -/
def generate (bible : String) (sessions : Sessions) (body : List (String × Json))
    (callModel : String → Except String (Option String)) : GenResult :=
  match validateGenerateBody body with
  | some err => ⟨⟨400, [("error", Json.str err)]⟩, sessions, []⟩
  | none =>
    if (jsonStringify (Json.obj body)).length > MAX_INPUT_CHARS then
      ⟨⟨413, [("error", Json.str "Input too large. Reduce world_summary/event_card/recent_memory.")]⟩,
        sessions, []⟩
    else generateCore bible sessions body callModel

end Part001

namespace Part000

/-- validateGenerateBody of the prose variant (scene_only/choice_point
enumeration). -/
def validateGenerateBody (body : List (String × Json)) : Option String :=
  match Part001.requiredFields.find? (fun k => (jsGetObj body k).isNone) with
  | some k => some ("Missing field: " ++ k)
  | none =>
    match jsGetObj body "scene_type" with
    | some (Json.str s) =>
      if s = "scene_only" ∨ s = "choice_point" then none
      else some "scene_type must be \x27scene_only\x27 or \x27choice_point\x27"
    | _ => some "scene_type must be \x27scene_only\x27 or \x27choice_point\x27"

/-- The trimmed system prompt of the prose variant. -/
def buildSystemPrompt (sceneType : String) : String :=
  "You are the narrative engine for a text-only single-player pirate campaign.\n\nMANDATORY RULES:\n- Write immersive, literary prose. 2â€“3 paragraphs maximum.\n- Never use tabletop / game-master tone. Never say â€œWhat do you do?â€\n- Foreground actionable objects clearly (do not hide interactables).\n- Use descriptors over names; introduce at most ONE new proper name per response.\n- Do not invent major plot beats beyond the provided event card.\n\nTURN PROTOCOL (MANDATORY):\n- If scene_type == scene_only: you may narrate the scene and end naturally.\n- If scene_type == choice_point:\n  - End narration after the final sentence.\n  - DO NOT continue the story.\n  - DO NOT narrate consequences.\n  - Output MUST stop immediately.\n  - End with the marker on its own line:\n    [AWAIT PLAYER ACTION]\n\nYou must obey the Turn Protocol for the provided scene_type: "
    ++ sceneType ++ "."

/-- The trimmed user prompt of the prose variant. -/
def buildUserPrompt (event_id world_summary event_card recent_memory player_input : String) :
    String :=
  "WORLD SUMMARY:\n" ++ world_summary
    ++ "\n\nCURRENT EVENT CARD (FOLLOW THIS):\n" ++ event_card
    ++ "\n\nRECENT MEMORY (MOST RECENT LAST):\n" ++ recent_memory
    ++ "\n\nPLAYER INPUT:\n" ++ player_input
    ++ "\n\nWrite the next response for event_id=" ++ event_id ++ "."

/-- POST /generate of the prose variant: validation, size guard,
clamping, credential check, one completion call.  The result pairs the
HTTP response with the list of prompts sent to the completion API. -/
def generate (apiKey : Option String) (body : List (String × Json))
    (callModel : String × String → Except String (Option String × Option Json)) :
    JsResponse × List (String × String) :=
  match validateGenerateBody body with
  | some err => (⟨400, [("error", Json.str err)]⟩, [])
  | none =>
    if (jsonStringify (Json.obj body)).length > MAX_INPUT_CHARS then
      (⟨413, [("error", Json.str "Input too large. Reduce world_summary/event_card/recent_memory.")]⟩,
        [])
    else
      let _p_session := clampString (jsOr ((jsGetObj body "session_id").getD Json.null) (Json.str "demo")) 80
      let p_scene := (jsGetObj body "scene_type").getD Json.null
      let p_event_id := clampString ((jsGetObj body "event_id").getD Json.null) 200
      let p_world := clampString ((jsGetObj body "world_summary").getD Json.null) 6000
      let p_card := clampString ((jsGetObj body "event_card").getD Json.null) 5000
      let p_mem := clampString ((jsGetObj body "recent_memory").getD Json.null) 4000
      let p_player := clampString ((jsGetObj body "player_input").getD Json.null) 2000
      if apiKey.getD "" = "" then
        (⟨500, [("error", Json.str "Missing OPENAI_API_KEY in .env")]⟩, [])
      else
        let sys := buildSystemPrompt (jsToString p_scene)
        let user := buildUserPrompt p_event_id p_world p_card p_mem p_player
        match callModel (sys, user) with
        | .error e =>
          (⟨500, [("error", Json.str "Server error"), ("detail", Json.str e)]⟩, [(sys, user)])
        | .ok (content, usage) =>
          (⟨200, [("text", Json.str (content.getD "")), ("usage", usage.getD Json.null)]⟩,
            [(sys, user)])

end Part000

namespace ServerJs

/-- validateGenerateBody of src/server.js, textually identical to the
prose variant's. -/
def validateGenerateBody (body : List (String × Json)) : Option String :=
  match Part001.requiredFields.find? (fun k => (jsGetObj body k).isNone) with
  | some k => some ("Missing field: " ++ k)
  | none =>
    match jsGetObj body "scene_type" with
    | some (Json.str s) =>
      if s = "scene_only" ∨ s = "choice_point" then none
      else some "scene_type must be \x27scene_only\x27 or \x27choice_point\x27"
    | _ => some "scene_type must be \x27scene_only\x27 or \x27choice_point\x27"

/-- The prompt template literal of src/server.js (this variant does not
trim it, so it keeps its leading and trailing newline). -/
def buildPrompt (bible world_summary event_card recent_memory player_input : String) :
    String :=
  "\nSYSTEM BIBLE:\n" ++ bible
    ++ "\n\nWORLD SUMMARY:\n" ++ world_summary
    ++ "\n\nEVENT:\n" ++ event_card
    ++ "\n\nRECENT MEMORY:\n" ++ recent_memory
    ++ "\n\nPLAYER ACTION:\n" ++ player_input
    ++ "\n\nWrite the next scene in immersive prose.\nReturn ONLY story text.\n"

/-- POST /generate of src/server.js: validation to 400, one completion
call, 200 with the text, catch-all to 500.  This variant has no size
guard and no clamping; its destructured session_id default is dead
code.  The bible text stands in for the file read.  The completion step
is an oracle; since the openai identifier is never defined in this
file, at runtime that step always throws, which the oracle's error case
covers. -/
def generate (bible : String) (body : List (String × Json))
    (callModel : String → Except String (Option String)) : JsResponse × List String :=
  match validateGenerateBody body with
  | some err => (⟨400, [("error", Json.str err)]⟩, [])
  | none =>
    let prompt := buildPrompt bible
      (jsToString ((jsGetObj body "world_summary").getD Json.null))
      (jsToString ((jsGetObj body "event_card").getD Json.null))
      (jsToString ((jsGetObj body "recent_memory").getD Json.null))
      (jsToString ((jsGetObj body "player_input").getD Json.null))
    match callModel prompt with
    | .error _ => (⟨500, [("error", Json.str "server error")]⟩, [prompt])
    | .ok content => (⟨200, [("text", Json.str (content.getD ""))]⟩, [prompt])

end ServerJs

/-! ### Concrete inputs used by witnesses and counterexamples -/

/-- A minimal valid request body for the structured-JSON variant. -/
def sampleBody : List (String × Json) :=
  [("scene_type", Json.str "choice_point"), ("event_id", Json.str "e1"),
   ("world_summary", Json.str "w"), ("event_card", Json.str "c"),
   ("recent_memory", Json.str ""), ("player_input", Json.str "look")]

/-- A well-shaped model output. -/
def goodRaw : String := "\x7b\"text\":\"T\",\"choices\":[\"a\",\"b\",\"c\"]\x7d"

/-- The parse of `goodRaw`. -/
def goodParsed : Json :=
  Json.obj [("text", Json.str "T"),
            ("choices", Json.arr [Json.str "a", Json.str "b", Json.str "c"])]

/-- A completion stub returning `goodRaw`. -/
def cmGood : String → Except String (Option String) := fun _ => Except.ok (some goodRaw)

/-- A completion stub that throws. -/
def cmBoom : String → Except String (Option String) := fun _ => Except.error "boom"

/-- A model output with only two choices. -/
def badRaw : String := "\x7b\"text\":\"T\",\"choices\":[\"a\",\"b\"]\x7d"

/-- The parse of `badRaw`. -/
def badParsed : Json :=
  Json.obj [("text", Json.str "T"), ("choices", Json.arr [Json.str "a", Json.str "b"])]

/-- A completion stub returning `badRaw`. -/
def cmBad : String → Except String (Option String) := fun _ => Except.ok (some badRaw)

/-- A 12001-character string of the letter a. -/
def bigA : String := String.mk (List.replicate 12001 'a')

/-- An oversized request body that also fails validation. -/
def c2Body : List (String × Json) :=
  [("scene_type", Json.str "choice_point"), ("event_id", Json.str bigA)]

/-- An oversized request body that passes validation. -/
def c2ValidBody : List (String × Json) :=
  [("scene_type", Json.str "choice_point"), ("event_id", Json.str "e1"),
   ("world_summary", Json.str bigA), ("event_card", Json.str "c"),
   ("recent_memory", Json.str ""), ("player_input", Json.str "look")]

/-- A body with all required fields present but an illegal
scene_type. -/
def badEnumBody : List (String × Json) :=
  [("scene_type", Json.str "bad"), ("event_id", Json.null),
   ("world_summary", Json.null), ("event_card", Json.null),
   ("recent_memory", Json.null), ("player_input", Json.null)]

/-- A body with all required fields present and the prose variant's
scene_only scene_type. -/
def sceneOnlyBody : List (String × Json) :=
  [("scene_type", Json.str "scene_only"), ("event_id", Json.null),
   ("world_summary", Json.null), ("event_card", Json.null),
   ("recent_memory", Json.null), ("player_input", Json.null)]

/-- A session store holding 4000 characters of memory for session
"demo". -/
def c3Store : Part001.Sessions :=
  [(Json.str "demo", ⟨String.mk (List.replicate 4000 'a'), Part001.defaultStats⟩)]

/-! ### Basic lemmas about strings and clamping -/

theorem string_mk_data (s : String) : String.mk s.data = s := rfl

theorem clampString_str (s : String) (n : Nat) :
    clampString (Json.str s) n = String.mk (s.data.take n) := by
  by_cases hs : s = ""
  · subst hs
    show ("" : String) = String.mk (("" : String).data.take n)
    rw [show ("" : String).data = ([] : List Char) from rfl, List.take_nil]
  · have ht : (!jsTruthy (Json.str s)) = false := by simp [jsTruthy, hs]
    unfold clampString
    rw [ht]
    show (if s.length > n then jsSlice0 s n else s) = String.mk (s.data.take n)
    by_cases hl : s.length > n
    · rw [if_pos hl]
      rfl
    · rw [if_neg hl, List.take_of_length_le (Nat.le_of_not_lt hl), string_mk_data]

theorem clampString_str_of_le {s : String} {n : Nat} (h : s.length ≤ n) :
    clampString (Json.str s) n = s := by
  rw [clampString_str, List.take_of_length_le h, string_mk_data]

theorem length_clampString_str (s : String) (n : Nat) :
    (clampString (Json.str s) n).length = min n s.length := by
  rw [clampString_str]
  show (s.data.take n).length = min n s.length
  rw [List.length_take]
  rfl

theorem length_clampString_str_le (s : String) (n : Nat) :
    (clampString (Json.str s) n).length ≤ n := by
  rw [length_clampString_str]
  omega

/-! ### Lemmas about the session store -/

namespace Part001

theorem lookupSess_append_ne (sessions : Sessions) (key : Json) (v : Session) (k : Json)
    (h : k ≠ key) : lookupSess (sessions ++ [(key, v)]) k = lookupSess sessions k := by
  induction sessions with
  | nil =>
    show (if key = k then some v else lookupSess [] k) = lookupSess [] k
    rw [if_neg (fun h2 : key = k => h h2.symm)]
  | cons kv rest ih =>
    obtain ⟨k0, s0⟩ := kv
    show (if k0 = k then some s0 else lookupSess (rest ++ [(key, v)]) k)
        = if k0 = k then some s0 else lookupSess rest k
    rw [ih]

theorem lookupSess_append_self (sessions : Sessions) (key : Json) (v : Session)
    (h : lookupSess sessions key = none) :
    lookupSess (sessions ++ [(key, v)]) key = some v := by
  induction sessions with
  | nil =>
    show (if key = key then some v else lookupSess [] key) = some v
    rw [if_pos rfl]
  | cons kv rest ih =>
    obtain ⟨k0, s0⟩ := kv
    have hcons : (if k0 = key then some s0 else lookupSess rest key) = none := h
    by_cases hk : k0 = key
    · rw [if_pos hk] at hcons
      exact Option.noConfusion hcons
    · rw [if_neg hk] at hcons
      show (if k0 = key then some s0 else lookupSess (rest ++ [(key, v)]) key) = some v
      rw [if_neg hk, ih hcons]

theorem lookupSess_setSess_self (sessions : Sessions) (key : Json) (v : Session) :
    lookupSess (setSess sessions key v) key = some v := by
  induction sessions with
  | nil =>
    show (if key = key then some v else lookupSess [] key) = some v
    rw [if_pos rfl]
  | cons kv rest ih =>
    obtain ⟨k0, s0⟩ := kv
    by_cases hk : k0 = key
    · have hset : setSess ((k0, s0) :: rest) key v = (k0, v) :: rest := by
        show (if k0 = key then (k0, v) :: rest else (k0, s0) :: setSess rest key v)
            = (k0, v) :: rest
        rw [if_pos hk]
      rw [hset]
      show (if k0 = key then some v else lookupSess rest key) = some v
      rw [if_pos hk]
    · have hset : setSess ((k0, s0) :: rest) key v = (k0, s0) :: setSess rest key v := by
        show (if k0 = key then (k0, v) :: rest else (k0, s0) :: setSess rest key v)
            = (k0, s0) :: setSess rest key v
        rw [if_neg hk]
      rw [hset]
      show (if k0 = key then some s0 else lookupSess (setSess rest key v) key) = some v
      rw [if_neg hk, ih]

theorem lookupSess_setSess_ne (sessions : Sessions) (key : Json) (v : Session) (k : Json)
    (h : k ≠ key) : lookupSess (setSess sessions key v) k = lookupSess sessions k := by
  induction sessions with
  | nil =>
    show (if key = k then some v else lookupSess [] k) = lookupSess [] k
    rw [if_neg (fun h2 : key = k => h h2.symm)]
  | cons kv rest ih =>
    obtain ⟨k0, s0⟩ := kv
    by_cases hk : k0 = key
    · have hset : setSess ((k0, s0) :: rest) key v = (k0, v) :: rest := by
        show (if k0 = key then (k0, v) :: rest else (k0, s0) :: setSess rest key v)
            = (k0, v) :: rest
        rw [if_pos hk]
      rw [hset]
      subst hk
      show (if k0 = k then some v else lookupSess rest k) = if k0 = k then some s0 else lookupSess rest k
      rw [if_neg (fun h2 : k0 = k => h h2.symm), if_neg (fun h2 : k0 = k => h h2.symm)]
    · have hset : setSess ((k0, s0) :: rest) key v = (k0, s0) :: setSess rest key v := by
        show (if k0 = key then (k0, v) :: rest else (k0, s0) :: setSess rest key v)
            = (k0, s0) :: setSess rest key v
        rw [if_neg hk]
      rw [hset]
      show (if k0 = k then some s0 else lookupSess (setSess rest key v) k)
          = if k0 = k then some s0 else lookupSess rest k
      rw [ih]

theorem getSession_fst (sessions : Sessions) (key : Json) :
    (getSession sessions key).1 = (lookupSess sessions key).getD freshSession := by
  unfold getSession
  cases h : lookupSess sessions key <;> simp

theorem lookupSess_getSession_snd_self (sessions : Sessions) (key : Json) :
    lookupSess (getSession sessions key).2 key = some (getSession sessions key).1 := by
  unfold getSession
  cases h : lookupSess sessions key with
  | some s => simpa using h
  | none => simpa using lookupSess_append_self sessions key freshSession h

theorem lookupSess_getSession_snd_ne (sessions : Sessions) (key : Json) (k : Json)
    (h : k ≠ key) : lookupSess (getSession sessions key).2 k = lookupSess sessions k := by
  unfold getSession
  cases hl : lookupSess sessions key with
  | some s => simp
  | none => simpa using lookupSess_append_ne sessions key freshSession k h

theorem memOf_getSession_snd (sessions : Sessions) (key : Json) (k : Json) :
    memOf (getSession sessions key).2 k = memOf sessions k := by
  by_cases hk : k = key
  · subst hk
    unfold memOf
    rw [lookupSess_getSession_snd_self, getSession_fst]
    cases h : lookupSess sessions k <;> simp [freshSession]
  · unfold memOf
    rw [lookupSess_getSession_snd_ne sessions key k hk]

/-! ### Path lemmas for the structured-JSON handler -/

theorem generate_eq_400 (bible : String) (sessions : Sessions) (body : List (String × Json))
    (cm : String → Except String (Option String)) (e : String)
    (h : validateGenerateBody body = some e) :
    generate bible sessions body cm = ⟨⟨400, [("error", Json.str e)]⟩, sessions, []⟩ := by
  unfold generate
  rw [h]

theorem generate_eq_413 (bible : String) (sessions : Sessions) (body : List (String × Json))
    (cm : String → Except String (Option String))
    (h : validateGenerateBody body = none)
    (h2 : (jsonStringify (Json.obj body)).length > MAX_INPUT_CHARS) :
    generate bible sessions body cm =
      ⟨⟨413, [("error", Json.str "Input too large. Reduce world_summary/event_card/recent_memory.")]⟩,
        sessions, []⟩ := by
  unfold generate
  rw [h]
  simp [h2]

theorem generate_eq_core (bible : String) (sessions : Sessions) (body : List (String × Json))
    (cm : String → Except String (Option String))
    (h : validateGenerateBody body = none)
    (h2 : ¬ (jsonStringify (Json.obj body)).length > MAX_INPUT_CHARS) :
    generate bible sessions body cm = generateCore bible sessions body cm := by
  unfold generate
  rw [h]
  simp [h2]

theorem generateCore_eq_err (bible : String) (sessions : Sessions) (body : List (String × Json))
    (cm : String → Except String (Option String)) (e : String)
    (h : cm (promptFor bible sessions body) = Except.error e) :
    generateCore bible sessions body cm =
      ⟨⟨500, [("error", Json.str "server error")]⟩,
        (getSession sessions (sessionIdOf body)).2, [promptFor bible sessions body]⟩ := by
  unfold generateCore
  simp only [h]

theorem generateCore_eq_parseFail (bible : String) (sessions : Sessions)
    (body : List (String × Json)) (cm : String → Except String (Option String))
    (content : Option String)
    (h : cm (promptFor bible sessions body) = Except.ok content)
    (h2 : tryParseModelJson (content.getD "") = none) :
    generateCore bible sessions body cm =
      ⟨⟨500, [("error", Json.str "Model did not return valid JSON"),
              ("raw", Json.str (content.getD ""))]⟩,
        (getSession sessions (sessionIdOf body)).2, [promptFor bible sessions body]⟩ := by
  unfold generateCore
  simp only [h, h2]

theorem generateCore_eq_badShape (bible : String) (sessions : Sessions)
    (body : List (String × Json)) (cm : String → Except String (Option String))
    (content : Option String) (parsed : Json)
    (h : cm (promptFor bible sessions body) = Except.ok content)
    (h2 : tryParseModelJson (content.getD "") = some parsed)
    (h3 : truthyTextOf parsed = false ∨ choices3Of parsed = false) :
    generateCore bible sessions body cm =
      ⟨⟨500, [("error", Json.str "Bad JSON shape from model"), ("parsed", parsed),
              ("raw", Json.str (content.getD ""))]⟩,
        (getSession sessions (sessionIdOf body)).2, [promptFor bible sessions body]⟩ := by
  have hcond : (!truthyTextOf parsed || !choices3Of parsed) = true := by
    rcases h3 with h3 | h3 <;> simp [h3]
  unfold generateCore
  simp only [h, h2, hcond, if_true]

theorem generateCore_eq_success (bible : String) (sessions : Sessions)
    (body : List (String × Json)) (cm : String → Except String (Option String))
    (content : Option String) (parsed : Json)
    (h : cm (promptFor bible sessions body) = Except.ok content)
    (h2 : tryParseModelJson (content.getD "") = some parsed)
    (h3 : truthyTextOf parsed = true) (h4 : choices3Of parsed = true) :
    generateCore bible sessions body cm =
      finishTurn (getSession sessions (sessionIdOf body)).2 (sessionIdOf body)
        (getSession sessions (sessionIdOf body)).1 (promptFor bible sessions body) body parsed := by
  have hcond : (!truthyTextOf parsed || !choices3Of parsed) = false := by
    simp [h3, h4]
  unfold generateCore
  simp only [h, h2, hcond, Bool.false_eq_true, if_false]

theorem find?_first_missing (body : List (String × Json)) (pre post : List String) (k : String)
    (hpre : ∀ k2 ∈ pre, (jsGetObj body k2).isSome) (hk : jsGetObj body k = none) :
    (pre ++ k :: post).find? (fun k2 => (jsGetObj body k2).isNone) = some k := by
  induction pre with
  | nil => simp [List.find?_cons, hk]
  | cons a pre2 ih =>
    have ha : (jsGetObj body a).isSome := hpre a (by simp)
    have hna : ((jsGetObj body a).isNone : Bool) = false := by
      cases hh : jsGetObj body a
      · rw [hh] at ha
        exact absurd ha (by simp)
      · rfl
    rw [List.cons_append, List.find?_cons_of_neg _ (by simp [hna]),
      ih (fun k2 h2 => hpre k2 (by simp [h2]))]

theorem find?_none_of_all_present (body : List (String × Json)) (l : List String)
    (h : ∀ k ∈ l, (jsGetObj body k).isSome) :
    l.find? (fun k2 => (jsGetObj body k2).isNone) = none := by
  rw [List.find?_eq_none]
  intro x hx
  have := h x hx
  cases hh : jsGetObj body x
  · rw [hh] at this
    exact absurd this (by simp)
  · simp

theorem choicesListOf_length (parsed : Json) (h : choices3Of parsed = true) :
    (choicesListOf parsed).length = 3 := by
  unfold choices3Of at h
  unfold choicesListOf
  cases hc : jsGetField parsed "choices" with
  | none => rw [hc] at h; exact absurd h (by simp)
  | some v =>
    rw [hc] at h
    cases v with
    | arr cs => simpa using h
    | null => exact absurd h (by simp)
    | bool b => exact absurd h (by simp)
    | num r => exact absurd h (by simp)
    | str s => exact absurd h (by simp)
    | obj fs => exact absurd h (by simp)

end Part001

/-! ### Claim C6 -/

/-- C6 counterexample: clampString applied to the non-string value
["aaaaaa"] with limit 3 returns the 6-character coercion "aaaaaa", so
the coerced result is not bounded by the limit as the claim states. -/
theorem c6_counterexample :
    clampString (Json.arr [Json.str "aaaaaa"]) 3 = "aaaaaa"
    ∧ ¬ ((clampString (Json.arr [Json.str "aaaaaa"]) 3).length ≤ 3) := by
  constructor
  · rfl
  · decide

/-- C6 (amended): for string inputs of length at most the limit
clampString is the identity; for longer strings the output length equals
exactly the limit; every truthy non-string value is coerced to its
string representation and returned without clamping (falsy values give
the empty string), so the coerced result may exceed the limit. -/
theorem c6_clampString :
    (∀ (s : String) (limit : Nat), s.length ≤ limit → clampString (Json.str s) limit = s)
    ∧ (∀ (s : String) (limit : Nat), s.length > limit →
        (clampString (Json.str s) limit).length = limit)
    ∧ (∀ (v : Json) (limit : Nat), (∀ s, v ≠ Json.str s) →
        clampString v limit = if jsTruthy v then jsToString v else "") := by
  refine ⟨fun s limit h => clampString_str_of_le h, fun s limit h => ?_, fun v limit h => ?_⟩
  · rw [length_clampString_str]
    omega
  · cases v with
    | str s => exact absurd rfl (h s)
    | null => rfl
    | bool b => cases b <;> rfl
    | num r =>
      unfold clampString
      cases hz : jsTruthy (Json.num r) <;> simp [hz]
    | arr xs => rfl
    | obj fs => rfl

/-- Witness for c6_clampString at concrete inputs. -/
theorem c6_clampString_witness :
    clampString (Json.str "ab") 5 = "ab"
    ∧ (clampString (Json.str "abcdef") 3).length = 3
    ∧ clampString (Json.arr [Json.str "aaaaaa"]) 3
        = (if jsTruthy (Json.arr [Json.str "aaaaaa"])
           then jsToString (Json.arr [Json.str "aaaaaa"]) else "") :=
  ⟨c6_clampString.1 "ab" 5 (by decide),
   c6_clampString.2.1 "abcdef" 3 (by decide),
   c6_clampString.2.2 (Json.arr [Json.str "aaaaaa"]) 3 (fun s h => Json.noConfusion h)⟩

/-! ### Claim C5 -/

/-- C5: the recovery parser first attempts a direct JSON.parse; on
failure it parses the slice from the first opening brace to the last
closing brace; the given example with a prefix and trailing junk parses
to the embedded object; when no such slice exists (or the slice also
fails, covered by the slice equation) the parser raises an error. -/
theorem c5_tryParseModelJson :
    (∀ (raw : String) (v : Json), parseJson raw = some v →
        Part001.tryParseModelJson raw = some v)
    ∧ (Part001.tryParseModelJson
          "Note: \x7b\"text\":\"A\",\"choices\":[\"a\",\"b\",\"c\"]\x7d trailing junk"
        = some (Json.obj [("text", Json.str "A"),
            ("choices", Json.arr [Json.str "a", Json.str "b", Json.str "c"])]))
    ∧ (∀ (raw : String) (st en : Nat), parseJson raw = none →
        firstIdxOf raw.data '\x7b' = some st → lastIdxOf raw.data '\x7d' = some en →
        en > st →
        Part001.tryParseModelJson raw
          = parseJson (String.mk ((raw.data.drop st).take (en + 1 - st))))
    ∧ (∀ raw : String, parseJson raw = none →
        (firstIdxOf raw.data '\x7b' = none ∨ lastIdxOf raw.data '\x7d' = none ∨
          ∀ st en, firstIdxOf raw.data '\x7b' = some st →
            lastIdxOf raw.data '\x7d' = some en → en ≤ st) →
        Part001.tryParseModelJson raw = none) := by
  refine ⟨fun raw v h => ?_, ?_, fun raw st en h h2 h3 h4 => ?_, fun raw h h2 => ?_⟩
  · unfold Part001.tryParseModelJson
    rw [h]
  · rfl
  · unfold Part001.tryParseModelJson
    simp only [h, h2, h3, if_pos h4]
  · unfold Part001.tryParseModelJson
    simp only [h]
    rcases h2 with h2 | h2 | h2
    · simp only [h2]
    · cases hf : firstIdxOf raw.data '\x7b' with
      | none => simp only [hf]
      | some st => simp only [hf, h2]
    · cases hf : firstIdxOf raw.data '\x7b' with
      | none => simp only [hf]
      | some st =>
        cases hl : lastIdxOf raw.data '\x7d' with
        | none => simp only [hf, hl]
        | some en =>
          have hle := h2 st en hf hl
          have hng : ¬ en > st := not_lt.mpr hle
          simp only [hf, hl, if_neg hng]

/-- Witness for c5_tryParseModelJson at concrete inputs. -/
theorem c5_tryParseModelJson_witness :
    Part001.tryParseModelJson "3" = some (Json.num "3")
    ∧ Part001.tryParseModelJson "junk" = none :=
  ⟨c5_tryParseModelJson.1 "3" (Json.num "3") (by rfl),
   c5_tryParseModelJson.2.2.2 "junk" (by rfl) (Or.inl (by rfl))⟩

/-! ### Claim C7 -/

/-- C7: in each variant, the validator reports the first missing
required field, rejects a scene_type outside that variant's
enumeration, and accepts bodies with all fields present and a legal
scene_type; the structured variant's handler and the src/server.js
handler each turn a validator error into a 400 response carrying the
message. -/
theorem c7_validateGenerateBody :
    (∀ (body : List (String × Json)) (pre post : List String) (k : String),
      Part001.requiredFields = pre ++ k :: post →
      (∀ k2 ∈ pre, (jsGetObj body k2).isSome) → jsGetObj body k = none →
      Part001.validateGenerateBody body = some ("Missing field: " ++ k))
    ∧ (∀ body : List (String × Json),
        (∀ k ∈ Part001.requiredFields, (jsGetObj body k).isSome) →
        (∀ v, jsGetObj body "scene_type" = some v →
          v ≠ Json.str "choice_point" ∧ v ≠ Json.str "narration") →
        Part001.validateGenerateBody body
          = some "scene_type must be \x27choice_point\x27 or \x27narration\x27")
    ∧ (∀ body : List (String × Json),
        (∀ k ∈ Part001.requiredFields, (jsGetObj body k).isSome) →
        (jsGetObj body "scene_type" = some (Json.str "choice_point") ∨
          jsGetObj body "scene_type" = some (Json.str "narration")) →
        Part001.validateGenerateBody body = none)
    ∧ (∀ (bible : String) (sessions : Part001.Sessions) (body : List (String × Json))
        (cm : String → Except String (Option String)) (e : String),
        Part001.validateGenerateBody body = some e →
        (Part001.generate bible sessions body cm).response
          = ⟨400, [("error", Json.str e)]⟩)
    ∧ (∀ (body : List (String × Json)) (pre post : List String) (k : String),
        Part001.requiredFields = pre ++ k :: post →
        (∀ k2 ∈ pre, (jsGetObj body k2).isSome) → jsGetObj body k = none →
        ServerJs.validateGenerateBody body = some ("Missing field: " ++ k))
    ∧ (∀ body : List (String × Json),
        (∀ k ∈ Part001.requiredFields, (jsGetObj body k).isSome) →
        (∀ v, jsGetObj body "scene_type" = some v →
          v ≠ Json.str "scene_only" ∧ v ≠ Json.str "choice_point") →
        ServerJs.validateGenerateBody body
          = some "scene_type must be \x27scene_only\x27 or \x27choice_point\x27")
    ∧ (∀ body : List (String × Json),
        (∀ k ∈ Part001.requiredFields, (jsGetObj body k).isSome) →
        (jsGetObj body "scene_type" = some (Json.str "scene_only") ∨
          jsGetObj body "scene_type" = some (Json.str "choice_point")) →
        ServerJs.validateGenerateBody body = none)
    ∧ (∀ (bible : String) (body : List (String × Json))
        (cm : String → Except String (Option String)) (e : String),
        ServerJs.validateGenerateBody body = some e →
        ServerJs.generate bible body cm
          = (⟨400, [("error", Json.str e)]⟩, [])) := by
  have henum1 : ∀ body : List (String × Json),
      (∀ k ∈ Part001.requiredFields, (jsGetObj body k).isSome) →
      (jsGetObj body "scene_type" = some (Json.str "choice_point") ∨
        jsGetObj body "scene_type" = some (Json.str "narration")) →
      Part001.validateGenerateBody body = none := by
    intro body h hd
    unfold Part001.validateGenerateBody
    rw [Part001.find?_none_of_all_present body _ h]
    rcases hd with hd | hd <;> simp [hd]
  refine ⟨fun body pre post k hsplit hpre hk => ?_, fun body h h2 => ?_, henum1,
    fun bible sessions body cm e h => ?_, fun body pre post k hsplit hpre hk => ?_,
    fun body h h2 => ?_, fun body h hd => ?_, fun bible body cm e h => ?_⟩
  · unfold Part001.validateGenerateBody
    rw [hsplit, Part001.find?_first_missing body pre post k hpre hk]
  · unfold Part001.validateGenerateBody
    rw [Part001.find?_none_of_all_present body _ h]
    have hst := h "scene_type" (by simp [Part001.requiredFields])
    cases hv : jsGetObj body "scene_type" with
    | none => rfl
    | some v =>
      have hne := h2 v hv
      cases v with
      | str s =>
        have hns : ¬ (s = "choice_point" ∨ s = "narration") := by
          rintro (rfl | rfl)
          · exact hne.1 rfl
          · exact hne.2 rfl
        show (if s = "choice_point" ∨ s = "narration" then none
              else some "scene_type must be \x27choice_point\x27 or \x27narration\x27")
            = some "scene_type must be \x27choice_point\x27 or \x27narration\x27"
        rw [if_neg hns]
      | null => rfl
      | bool b => rfl
      | num r => rfl
      | arr xs => rfl
      | obj fs => rfl
  · rw [Part001.generate_eq_400 bible sessions body cm e h]
  · unfold ServerJs.validateGenerateBody
    rw [hsplit, Part001.find?_first_missing body pre post k hpre hk]
  · unfold ServerJs.validateGenerateBody
    rw [Part001.find?_none_of_all_present body _ h]
    have hst := h "scene_type" (by simp [Part001.requiredFields])
    cases hv : jsGetObj body "scene_type" with
    | none => rfl
    | some v =>
      have hne := h2 v hv
      cases v with
      | str s =>
        have hns : ¬ (s = "scene_only" ∨ s = "choice_point") := by
          rintro (rfl | rfl)
          · exact hne.1 rfl
          · exact hne.2 rfl
        show (if s = "scene_only" ∨ s = "choice_point" then none
              else some "scene_type must be \x27scene_only\x27 or \x27choice_point\x27")
            = some "scene_type must be \x27scene_only\x27 or \x27choice_point\x27"
        rw [if_neg hns]
      | null => rfl
      | bool b => rfl
      | num r => rfl
      | arr xs => rfl
      | obj fs => rfl
  · unfold ServerJs.validateGenerateBody
    rw [Part001.find?_none_of_all_present body _ h]
    rcases hd with hd | hd <;> simp [hd]
  · unfold ServerJs.generate
    simp only [h]

/-- Witness for c7_validateGenerateBody at concrete inputs. -/
theorem c7_validateGenerateBody_witness :
    Part001.validateGenerateBody [] = some "Missing field: scene_type"
    ∧ Part001.validateGenerateBody sampleBody = none
    ∧ Part001.validateGenerateBody badEnumBody
        = some "scene_type must be \x27choice_point\x27 or \x27narration\x27"
    ∧ (Part001.generate "B" [] [] cmBoom).response
        = ⟨400, [("error", Json.str "Missing field: scene_type")]⟩
    ∧ ServerJs.validateGenerateBody [] = some "Missing field: scene_type"
    ∧ ServerJs.validateGenerateBody badEnumBody
        = some "scene_type must be \x27scene_only\x27 or \x27choice_point\x27"
    ∧ ServerJs.validateGenerateBody sceneOnlyBody = none
    ∧ ServerJs.generate "B" [] cmBoom
        = (⟨400, [("error", Json.str "Missing field: scene_type")]⟩, []) :=
  ⟨c7_validateGenerateBody.1 [] [] _ "scene_type" rfl (by simp) rfl,
   c7_validateGenerateBody.2.2.1 sampleBody (by decide) (Or.inl (by rfl)),
   c7_validateGenerateBody.2.1 badEnumBody (by decide)
     (by
       intro v hv
       rw [show jsGetObj badEnumBody "scene_type" = some (Json.str "bad") from rfl] at hv
       cases hv
       exact ⟨by decide, by decide⟩),
   c7_validateGenerateBody.2.2.2.1 "B" [] [] cmBoom _
     (c7_validateGenerateBody.1 [] [] _ "scene_type" rfl (by simp) rfl),
   c7_validateGenerateBody.2.2.2.2.1 [] [] _ "scene_type" rfl (by simp) rfl,
   c7_validateGenerateBody.2.2.2.2.2.1 badEnumBody (by decide)
     (by
       intro v hv
       rw [show jsGetObj badEnumBody "scene_type" = some (Json.str "bad") from rfl] at hv
       cases hv
       exact ⟨by decide, by decide⟩),
   c7_validateGenerateBody.2.2.2.2.2.2.1 sceneOnlyBody (by decide) (Or.inl (by rfl)),
   c7_validateGenerateBody.2.2.2.2.2.2.2 "B" [] cmBoom _
     (c7_validateGenerateBody.2.2.2.2.1 [] [] _ "scene_type" rfl (by simp) rfl)⟩

/-! ### Further path lemmas shared by the handler claims -/

namespace Part001

theorem generate_status200 (bible : String) (sessions : Sessions) (body : List (String × Json))
    (cm : String → Except String (Option String))
    (h200 : (generate bible sessions body cm).response.status = 200) :
    ∃ (content : Option String) (parsed : Json),
      validateGenerateBody body = none
      ∧ ¬ (jsonStringify (Json.obj body)).length > MAX_INPUT_CHARS
      ∧ cm (promptFor bible sessions body) = Except.ok content
      ∧ tryParseModelJson (content.getD "") = some parsed
      ∧ truthyTextOf parsed = true ∧ choices3Of parsed = true
      ∧ generate bible sessions body cm
          = finishTurn (getSession sessions (sessionIdOf body)).2 (sessionIdOf body)
              (getSession sessions (sessionIdOf body)).1 (promptFor bible sessions body)
              body parsed := by
  cases hval : validateGenerateBody body with
  | some e =>
    rw [generate_eq_400 bible sessions body cm e hval] at h200
    simp at h200
  | none =>
    by_cases hsize : (jsonStringify (Json.obj body)).length > MAX_INPUT_CHARS
    · rw [generate_eq_413 bible sessions body cm hval hsize] at h200
      simp at h200
    · cases hcm : cm (promptFor bible sessions body) with
      | error e =>
        rw [generate_eq_core bible sessions body cm hval hsize,
          generateCore_eq_err bible sessions body cm e hcm] at h200
        simp at h200
      | ok content =>
        cases hparse : tryParseModelJson (content.getD "") with
        | none =>
          rw [generate_eq_core bible sessions body cm hval hsize,
            generateCore_eq_parseFail bible sessions body cm content hcm hparse] at h200
          simp at h200
        | some parsed =>
          cases htext : truthyTextOf parsed with
          | false =>
            rw [generate_eq_core bible sessions body cm hval hsize,
              generateCore_eq_badShape bible sessions body cm content parsed hcm hparse
                (Or.inl htext)] at h200
            simp at h200
          | true =>
            cases hch : choices3Of parsed with
            | false =>
              rw [generate_eq_core bible sessions body cm hval hsize,
                generateCore_eq_badShape bible sessions body cm content parsed hcm hparse
                  (Or.inr hch)] at h200
              simp at h200
            | true =>
              exact ⟨content, parsed, rfl, hsize, rfl, hparse, htext, hch, by
                rw [generate_eq_core bible sessions body cm hval hsize,
                  generateCore_eq_success bible sessions body cm content parsed hcm hparse
                    htext hch]⟩

theorem generate_sessions_shape (bible : String) (sessions : Sessions)
    (body : List (String × Json)) (cm : String → Except String (Option String)) :
    (generate bible sessions body cm).sessions = sessions
    ∨ (generate bible sessions body cm).sessions = (getSession sessions (sessionIdOf body)).2
    ∨ ∃ mem, (generate bible sessions body cm).sessions
        = setSess (getSession sessions (sessionIdOf body)).2 (sessionIdOf body)
            ⟨mem, (getSession sessions (sessionIdOf body)).1.stats⟩
          ∧ mem.length ≤ 4000 := by
  cases hval : validateGenerateBody body with
  | some e =>
    rw [generate_eq_400 bible sessions body cm e hval]
    exact Or.inl rfl
  | none =>
    by_cases hsize : (jsonStringify (Json.obj body)).length > MAX_INPUT_CHARS
    · rw [generate_eq_413 bible sessions body cm hval hsize]
      exact Or.inl rfl
    · rw [generate_eq_core bible sessions body cm hval hsize]
      cases hcm : cm (promptFor bible sessions body) with
      | error e =>
        rw [generateCore_eq_err bible sessions body cm e hcm]
        exact Or.inr (Or.inl rfl)
      | ok content =>
        cases hparse : tryParseModelJson (content.getD "") with
        | none =>
          rw [generateCore_eq_parseFail bible sessions body cm content hcm hparse]
          exact Or.inr (Or.inl rfl)
        | some parsed =>
          cases htext : truthyTextOf parsed with
          | false =>
            rw [generateCore_eq_badShape bible sessions body cm content parsed hcm hparse
              (Or.inl htext)]
            exact Or.inr (Or.inl rfl)
          | true =>
            cases hch : choices3Of parsed with
            | false =>
              rw [generateCore_eq_badShape bible sessions body cm content parsed hcm hparse
                (Or.inr hch)]
              exact Or.inr (Or.inl rfl)
            | true =>
              rw [generateCore_eq_success bible sessions body cm content parsed hcm hparse
                htext hch]
              exact Or.inr (Or.inr ⟨_, rfl, length_clampString_str_le _ _⟩)

theorem lookupSess_getSession_cases (sessions : Sessions) (key k : Json) (s : Session)
    (h : lookupSess (getSession sessions key).2 k = some s) :
    lookupSess sessions k = some s ∨ (k = key ∧ s = (getSession sessions key).1) := by
  by_cases hk : k = key
  · subst hk
    rw [lookupSess_getSession_snd_self] at h
    exact Or.inr ⟨rfl, (Option.some.inj h).symm⟩
  · rw [lookupSess_getSession_snd_ne sessions key k hk] at h
    exact Or.inl h

theorem lookupSess_setSess_cases (sessions : Sessions) (key : Json) (v : Session)
    (k : Json) (s : Session) (h : lookupSess (setSess sessions key v) k = some s) :
    lookupSess sessions k = some s ∨ (k = key ∧ s = v) := by
  by_cases hk : k = key
  · subst hk
    rw [lookupSess_setSess_self] at h
    exact Or.inr ⟨rfl, (Option.some.inj h).symm⟩
  · rw [lookupSess_setSess_ne sessions key v k hk] at h
    exact Or.inl h

theorem getSession_fst_stats (sessions : Sessions) (key : Json)
    (hinv : ∀ k s, lookupSess sessions k = some s → s.stats = defaultStats) :
    (getSession sessions key).1.stats = defaultStats := by
  rw [getSession_fst]
  cases h : lookupSess sessions key with
  | none => rfl
  | some s => exact hinv key s h

end Part001

/-! ### Claim C1 -/

/-- C1: in the structured-JSON variant, a model output whose parsed
value lacks a truthy text or whose choices is not an array of length
exactly 3 yields a 500 "Bad JSON shape from model" response and leaves
every session's recent_memory unchanged; conversely every 200 response
carries a choices array of exactly three elements. -/
theorem c1_badJsonShape :
    (∀ (bible : String) (sessions : Part001.Sessions) (body : List (String × Json))
        (cm : String → Except String (Option String)) (content : Option String) (parsed : Json),
      Part001.validateGenerateBody body = none →
      ¬ (jsonStringify (Json.obj body)).length > MAX_INPUT_CHARS →
      cm (Part001.promptFor bible sessions body) = Except.ok content →
      Part001.tryParseModelJson (content.getD "") = some parsed →
      (Part001.truthyTextOf parsed = false ∨ Part001.choices3Of parsed = false) →
      (Part001.generate bible sessions body cm).response
          = ⟨500, [("error", Json.str "Bad JSON shape from model"), ("parsed", parsed),
                   ("raw", Json.str (content.getD ""))]⟩
        ∧ ∀ k, Part001.memOf (Part001.generate bible sessions body cm).sessions k
            = Part001.memOf sessions k)
    ∧ (∀ (bible : String) (sessions : Part001.Sessions) (body : List (String × Json))
        (cm : String → Except String (Option String)),
      (Part001.generate bible sessions body cm).response.status = 200 →
      ∃ cs, jsGetObj (Part001.generate bible sessions body cm).response.body "choices"
          = some (Json.arr cs) ∧ cs.length = 3) := by
  constructor
  · intro bible sessions body cm content parsed hval hsize hcm hparse hshape
    rw [Part001.generate_eq_core bible sessions body cm hval hsize,
      Part001.generateCore_eq_badShape bible sessions body cm content parsed hcm hparse hshape]
    exact ⟨rfl, fun k => Part001.memOf_getSession_snd sessions _ k⟩
  · intro bible sessions body cm h200
    obtain ⟨content, parsed, -, -, -, -, -, hch, heq⟩ :=
      Part001.generate_status200 bible sessions body cm h200
    rw [heq]
    exact ⟨Part001.choicesListOf parsed, rfl, Part001.choicesListOf_length parsed hch⟩

/-- Witness for c1_badJsonShape: a two-element choices array yields the
500 shape error and leaves memory unchanged; a well-shaped output yields
a 200 with three choices. -/
theorem c1_badJsonShape_witness :
    ((Part001.generate "B" [] sampleBody cmBad).response
        = ⟨500, [("error", Json.str "Bad JSON shape from model"), ("parsed", badParsed),
                 ("raw", Json.str badRaw)]⟩)
    ∧ Part001.memOf (Part001.generate "B" [] sampleBody cmBad).sessions (Json.str "demo")
        = Part001.memOf ([] : Part001.Sessions) (Json.str "demo")
    ∧ ∃ cs, jsGetObj (Part001.generate "B" [] sampleBody cmGood).response.body "choices"
        = some (Json.arr cs) ∧ cs.length = 3 :=
  ⟨(c1_badJsonShape.1 "B" [] sampleBody cmBad (some badRaw) badParsed (by decide) (by decide)
      (by rfl) (by rfl) (Or.inr (by rfl))).1,
   (c1_badJsonShape.1 "B" [] sampleBody cmBad (some badRaw) badParsed (by decide) (by decide)
      (by rfl) (by rfl) (Or.inr (by rfl))).2 (Json.str "demo"),
   c1_badJsonShape.2 "B" [] sampleBody cmGood (by rfl)⟩

/-! ### Claim C8 -/

/-- C8: with the credential absent the prose variant answers 500 for the
request with the fixed message, independently of the completion stub and
with no completion call made; both handlers send at most one completion
call per request; an exception from the completion call surfaces as a
500 with a minimal detail string and no partial result, and in the
structured variant it leaves every session's memory unchanged. -/
theorem c8_failure_semantics :
    (∀ (body : List (String × Json))
        (cm cm2 : String × String → Except String (Option String × Option Json)),
      Part000.validateGenerateBody body = none →
      ¬ (jsonStringify (Json.obj body)).length > MAX_INPUT_CHARS →
      Part000.generate none body cm
          = (⟨500, [("error", Json.str "Missing OPENAI_API_KEY in .env")]⟩, [])
        ∧ Part000.generate none body cm = Part000.generate none body cm2)
    ∧ (∀ apiKey body cm, (Part000.generate apiKey body cm).2.length ≤ 1)
    ∧ (∀ bible sessions body cm, (Part001.generate bible sessions body cm).calls.length ≤ 1)
    ∧ (∀ (apiKey : Option String) (body : List (String × Json))
        (cm : String × String → Except String (Option String × Option Json)) (e : String),
      Part000.validateGenerateBody body = none →
      ¬ (jsonStringify (Json.obj body)).length > MAX_INPUT_CHARS →
      apiKey.getD "" ≠ "" →
      (∀ p, cm p = Except.error e) →
      (Part000.generate apiKey body cm).1
          = ⟨500, [("error", Json.str "Server error"), ("detail", Json.str e)]⟩
        ∧ jsGetObj (Part000.generate apiKey body cm).1.body "text" = none)
    ∧ (∀ (bible : String) (sessions : Part001.Sessions) (body : List (String × Json))
        (cm : String → Except String (Option String)) (e : String),
      Part001.validateGenerateBody body = none →
      ¬ (jsonStringify (Json.obj body)).length > MAX_INPUT_CHARS →
      (∀ p : String, cm p = Except.error e) →
      (Part001.generate bible sessions body cm).response
          = ⟨500, [("error", Json.str "server error")]⟩
        ∧ ∀ k, Part001.memOf (Part001.generate bible sessions body cm).sessions k
            = Part001.memOf sessions k) := by
  refine ⟨fun body cm cm2 hval hsize => ?_, fun apiKey body cm => ?_,
    fun bible sessions body cm => ?_, fun apiKey body cm e hval hsize hkey hcm => ?_,
    fun bible sessions body cm e hval hsize hcm => ?_⟩
  · have hone : ∀ cm3 : String × String → Except String (Option String × Option Json),
        Part000.generate none body cm3
          = (⟨500, [("error", Json.str "Missing OPENAI_API_KEY in .env")]⟩, []) := by
      intro cm3
      unfold Part000.generate
      simp only [hval, if_neg hsize]
      rw [if_pos (show (none : Option String).getD "" = "" from rfl)]
    exact ⟨hone cm, (hone cm).trans (hone cm2).symm⟩
  · unfold Part000.generate
    cases hval : Part000.validateGenerateBody body with
    | some e => simp
    | none =>
      by_cases hsize : (jsonStringify (Json.obj body)).length > MAX_INPUT_CHARS
      · simp [hsize]
      · simp only [if_neg hsize]
        by_cases hkey : apiKey.getD "" = ""
        · simp [hkey]
        · simp only [if_neg hkey]
          cases cm (Part000.buildSystemPrompt (jsToString ((jsGetObj body "scene_type").getD Json.null)),
              Part000.buildUserPrompt (clampString ((jsGetObj body "event_id").getD Json.null) 200)
                (clampString ((jsGetObj body "world_summary").getD Json.null) 6000)
                (clampString ((jsGetObj body "event_card").getD Json.null) 5000)
                (clampString ((jsGetObj body "recent_memory").getD Json.null) 4000)
                (clampString ((jsGetObj body "player_input").getD Json.null) 2000)) with
          | error e => simp
          | ok r =>
            obtain ⟨content, usage⟩ := r
            simp
  · cases hval : Part001.validateGenerateBody body with
    | some e => rw [Part001.generate_eq_400 bible sessions body cm e hval]; simp
    | none =>
      by_cases hsize : (jsonStringify (Json.obj body)).length > MAX_INPUT_CHARS
      · rw [Part001.generate_eq_413 bible sessions body cm hval hsize]; simp
      · rw [Part001.generate_eq_core bible sessions body cm hval hsize]
        cases hcm : cm (Part001.promptFor bible sessions body) with
        | error e => rw [Part001.generateCore_eq_err bible sessions body cm e hcm]; simp
        | ok content =>
          cases hparse : Part001.tryParseModelJson (content.getD "") with
          | none =>
            rw [Part001.generateCore_eq_parseFail bible sessions body cm content hcm hparse]
            simp
          | some parsed =>
            cases htext : Part001.truthyTextOf parsed with
            | false =>
              rw [Part001.generateCore_eq_badShape bible sessions body cm content parsed hcm
                hparse (Or.inl htext)]
              simp
            | true =>
              cases hch : Part001.choices3Of parsed with
              | false =>
                rw [Part001.generateCore_eq_badShape bible sessions body cm content parsed hcm
                  hparse (Or.inr hch)]
                simp
              | true =>
                rw [Part001.generateCore_eq_success bible sessions body cm content parsed hcm
                  hparse htext hch]
                simp [Part001.finishTurn]
  · have heq : Part000.generate apiKey body cm
        = (⟨500, [("error", Json.str "Server error"), ("detail", Json.str e)]⟩,
           [(Part000.buildSystemPrompt (jsToString ((jsGetObj body "scene_type").getD Json.null)),
             Part000.buildUserPrompt (clampString ((jsGetObj body "event_id").getD Json.null) 200)
               (clampString ((jsGetObj body "world_summary").getD Json.null) 6000)
               (clampString ((jsGetObj body "event_card").getD Json.null) 5000)
               (clampString ((jsGetObj body "recent_memory").getD Json.null) 4000)
               (clampString ((jsGetObj body "player_input").getD Json.null) 2000))]) := by
      unfold Part000.generate
      simp only [hval, if_neg hsize, if_neg hkey, hcm]
    rw [heq]
    exact ⟨rfl, rfl⟩
  · rw [Part001.generate_eq_core bible sessions body cm hval hsize,
      Part001.generateCore_eq_err bible sessions body cm e
        (hcm (Part001.promptFor bible sessions body))]
    exact ⟨rfl, fun k => Part001.memOf_getSession_snd sessions _ k⟩

/-- Witness for c8_failure_semantics at concrete inputs. -/
theorem c8_failure_semantics_witness :
    (Part000.generate none sampleBody (fun _ => Except.error "boom")
        = (⟨500, [("error", Json.str "Missing OPENAI_API_KEY in .env")]⟩, []))
    ∧ (Part000.generate (some "k") sampleBody (fun _ => Except.error "boom")).1
        = ⟨500, [("error", Json.str "Server error"), ("detail", Json.str "boom")]⟩
    ∧ (Part001.generate "B" [] sampleBody cmBoom).response
        = ⟨500, [("error", Json.str "server error")]⟩
    ∧ Part001.memOf (Part001.generate "B" [] sampleBody cmBoom).sessions (Json.str "demo")
        = Part001.memOf ([] : Part001.Sessions) (Json.str "demo")
    ∧ (Part000.generate (some "k") sampleBody (fun _ => Except.error "boom")).2.length ≤ 1
    ∧ (Part001.generate "B" [] sampleBody cmBoom).calls.length ≤ 1 :=
  ⟨(c8_failure_semantics.1 sampleBody (fun _ => Except.error "boom")
      (fun _ => Except.error "boom") (by decide) (by decide)).1,
   (c8_failure_semantics.2.2.2.1 (some "k") sampleBody (fun _ => Except.error "boom") "boom"
      (by decide) (by decide) (by decide) (fun p => rfl)).1,
   (c8_failure_semantics.2.2.2.2 "B" [] sampleBody cmBoom "boom" (by decide) (by decide)
      (fun p => rfl)).1,
   (c8_failure_semantics.2.2.2.2 "B" [] sampleBody cmBoom "boom" (by decide) (by decide)
      (fun p => rfl)).2 (Json.str "demo"),
   c8_failure_semantics.2.1 (some "k") sampleBody (fun _ => Except.error "boom"),
   c8_failure_semantics.2.2.1 "B" [] sampleBody cmBoom⟩

/-! ### Claim C9 -/

/-- C9: every session is created with the hardcoded default stats
(health 10, reputation 0, money 0); no /generate request ever changes
any session's stats, only recent_memory; hence when all stored sessions
carry default stats, the property is preserved by every request and the
stats snapshot of every 200 response equals the defaults. -/
theorem c9_stats_frame :
    Part001.freshSession.stats = Part001.defaultStats
    ∧ (∀ (bible : String) (sessions : Part001.Sessions) (body : List (String × Json))
        (cm : String → Except String (Option String)),
      (∀ k s, Part001.lookupSess sessions k = some s → s.stats = Part001.defaultStats) →
      ∀ k s, Part001.lookupSess (Part001.generate bible sessions body cm).sessions k = some s →
        s.stats = Part001.defaultStats)
    ∧ (∀ (bible : String) (sessions : Part001.Sessions) (body : List (String × Json))
        (cm : String → Except String (Option String)) (k : Json) (s : Part001.Session),
      Part001.lookupSess sessions k = some s →
      ∃ s2, Part001.lookupSess (Part001.generate bible sessions body cm).sessions k = some s2
        ∧ s2.stats = s.stats)
    ∧ (∀ (bible : String) (sessions : Part001.Sessions) (body : List (String × Json))
        (cm : String → Except String (Option String)),
      (∀ k s, Part001.lookupSess sessions k = some s → s.stats = Part001.defaultStats) →
      (Part001.generate bible sessions body cm).response.status = 200 →
      jsGetObj (Part001.generate bible sessions body cm).response.body "stats"
        = some (Part001.statsToJson Part001.defaultStats)) := by
  refine ⟨rfl, fun bible sessions body cm hinv k s hs => ?_,
    fun bible sessions body cm k s hs => ?_, fun bible sessions body cm hinv h200 => ?_⟩
  · rcases Part001.generate_sessions_shape bible sessions body cm with hsh | hsh | ⟨mem, hsh, -⟩
    · rw [hsh] at hs
      exact hinv k s hs
    · rw [hsh] at hs
      rcases Part001.lookupSess_getSession_cases sessions _ k s hs with hc | ⟨-, hc⟩
      · exact hinv k s hc
      · rw [hc]
        exact Part001.getSession_fst_stats sessions _ hinv
    · rw [hsh] at hs
      rcases Part001.lookupSess_setSess_cases _ _ _ k s hs with hc | ⟨-, hc⟩
      · rcases Part001.lookupSess_getSession_cases sessions _ k s hc with hc2 | ⟨-, hc2⟩
        · exact hinv k s hc2
        · rw [hc2]
          exact Part001.getSession_fst_stats sessions _ hinv
      · rw [hc]
        exact Part001.getSession_fst_stats sessions _ hinv
  · have hgs : Part001.lookupSess (Part001.getSession sessions (Part001.sessionIdOf body)).2 k
        = some s := by
      by_cases hk : k = Part001.sessionIdOf body
      · subst hk
        rw [Part001.lookupSess_getSession_snd_self, Part001.getSession_fst, hs]
        rfl
      · rw [Part001.lookupSess_getSession_snd_ne sessions _ k hk]
        exact hs
    have hfststats : (Part001.getSession sessions (Part001.sessionIdOf body)).1.stats = s.stats
        ∨ k ≠ Part001.sessionIdOf body := by
      by_cases hk : k = Part001.sessionIdOf body
      · subst hk
        rw [Part001.getSession_fst, hs]
        exact Or.inl rfl
      · exact Or.inr hk
    rcases Part001.generate_sessions_shape bible sessions body cm with hsh | hsh | ⟨mem, hsh, -⟩
    · exact ⟨s, by rw [hsh]; exact hs, rfl⟩
    · exact ⟨s, by rw [hsh]; exact hgs, rfl⟩
    · rw [hsh]
      by_cases hk : k = Part001.sessionIdOf body
      · subst hk
        refine ⟨_, Part001.lookupSess_setSess_self _ _ _, ?_⟩
        rcases hfststats with hst | hst
        · exact hst
        · exact absurd rfl hst
      · exact ⟨s, by rw [Part001.lookupSess_setSess_ne _ _ _ k hk]; exact hgs, rfl⟩
  · obtain ⟨content, parsed, -, -, -, -, -, -, heq⟩ :=
      Part001.generate_status200 bible sessions body cm h200
    rw [heq]
    show some (Part001.statsToJson (Part001.getSession sessions (Part001.sessionIdOf body)).1.stats)
        = some (Part001.statsToJson Part001.defaultStats)
    rw [Part001.getSession_fst_stats sessions _ hinv]

/-- Witness for c9_stats_frame at concrete inputs. -/
theorem c9_stats_frame_witness :
    (∀ k s, Part001.lookupSess (Part001.generate "B" [] sampleBody cmGood).sessions k = some s →
      s.stats = Part001.defaultStats)
    ∧ (∃ s2, Part001.lookupSess (Part001.generate "B" c3Store sampleBody cmGood).sessions
          (Json.str "demo") = some s2
        ∧ s2.stats = (⟨String.mk (List.replicate 4000 'a'), Part001.defaultStats⟩ :
            Part001.Session).stats)
    ∧ jsGetObj (Part001.generate "B" [] sampleBody cmGood).response.body "stats"
        = some (Part001.statsToJson Part001.defaultStats) :=
  ⟨c9_stats_frame.2.1 "B" [] sampleBody cmGood (fun k s hs => by cases hs),
   c9_stats_frame.2.2.1 "B" c3Store sampleBody cmGood (Json.str "demo") _ (by rfl),
   c9_stats_frame.2.2.2 "B" [] sampleBody cmGood (fun k s hs => by cases hs) (by rfl)⟩

/-! ### Claim C10 -/

/-- C10: a request that omits session_id uses the literal "demo" as its
session key, so it touches no other session record, and a 200 response
echoes session_id "demo". -/
theorem c10_default_session :
    ∀ (bible : String) (sessions : Part001.Sessions) (body : List (String × Json))
      (cm : String → Except String (Option String)),
      jsGetObj body "session_id" = none →
      (∀ k, k ≠ Json.str "demo" →
        Part001.lookupSess (Part001.generate bible sessions body cm).sessions k
          = Part001.lookupSess sessions k)
      ∧ ((Part001.generate bible sessions body cm).response.status = 200 →
        jsGetObj (Part001.generate bible sessions body cm).response.body "session_id"
          = some (Json.str "demo")) := by
  intro bible sessions body cm h
  have hsid : Part001.sessionIdOf body = Json.str "demo" := by
    unfold Part001.sessionIdOf
    rw [h]
    rfl
  constructor
  · intro k hk
    rcases Part001.generate_sessions_shape bible sessions body cm with hsh | hsh | ⟨mem, hsh, -⟩
    · rw [hsh]
    · rw [hsh, hsid]
      exact Part001.lookupSess_getSession_snd_ne sessions _ k hk
    · rw [hsh, hsid]
      rw [Part001.lookupSess_setSess_ne _ _ _ k hk]
      exact Part001.lookupSess_getSession_snd_ne sessions _ k hk
  · intro h200
    obtain ⟨content, parsed, -, -, -, -, -, -, heq⟩ :=
      Part001.generate_status200 bible sessions body cm h200
    rw [heq, hsid]
    rfl

/-- Witness for c10_default_session at a concrete request omitting
session_id. -/
theorem c10_default_session_witness :
    Part001.lookupSess (Part001.generate "B" [] sampleBody cmGood).sessions (Json.str "other")
        = Part001.lookupSess ([] : Part001.Sessions) (Json.str "other")
    ∧ jsGetObj (Part001.generate "B" [] sampleBody cmGood).response.body "session_id"
        = some (Json.str "demo") :=
  ⟨(c10_default_session "B" [] sampleBody cmGood (by rfl)).1 (Json.str "other") (by decide),
   (c10_default_session "B" [] sampleBody cmGood (by rfl)).2 (by rfl)⟩

/-! ### Claim C2 -/

theorem escapeJsonStr_replicate_a (n : Nat) :
    escapeJsonStr (List.replicate n 'a') = List.replicate n 'a' := by
  induction n with
  | zero => rfl
  | succ n ih =>
    rw [List.replicate_succ]
    show escapeJsonChar 'a' ++ escapeJsonStr (List.replicate n 'a') = _
    rw [ih, show escapeJsonChar 'a' = ['a'] from rfl]
    rfl

theorem quoteJson_bigA_length : (quoteJson bigA).length = 12003 := by
  show ('"' :: (escapeJsonStr bigA.data ++ ['"'])).length = 12003
  rw [show bigA.data = List.replicate 12001 'a' from rfl, escapeJsonStr_replicate_a,
    List.length_cons, List.length_append, List.length_replicate, List.length_singleton]

theorem stringify_two_str_fields (k1 k2 v1 v2 : String) :
    jsonStringify (Json.obj [(k1, Json.str v1), (k2, Json.str v2)])
      = "\x7b" ++ ((quoteJson k1 ++ ":" ++ quoteJson v1) ++ ","
          ++ (quoteJson k2 ++ ":" ++ quoteJson v2)) ++ "\x7d" := rfl

theorem c2Body_stringify_big :
    (jsonStringify (Json.obj c2Body)).length > MAX_INPUT_CHARS := by
  rw [show Json.obj c2Body
      = Json.obj [("scene_type", Json.str "choice_point"), ("event_id", Json.str bigA)] from rfl,
    stringify_two_str_fields]
  simp only [String.length_append]
  rw [quoteJson_bigA_length]
  show _ > 12000
  omega

theorem c2ValidBody_stringify_big :
    (jsonStringify (Json.obj c2ValidBody)).length > MAX_INPUT_CHARS := by
  have hdecomp : jsonStringify (Json.obj c2ValidBody)
      = "\x7b" ++ ((((((quoteJson "scene_type" ++ ":" ++ quoteJson "choice_point")
          ++ "," ++ (quoteJson "event_id" ++ ":" ++ quoteJson "e1"))
          ++ "," ++ (quoteJson "world_summary" ++ ":" ++ quoteJson bigA))
          ++ "," ++ (quoteJson "event_card" ++ ":" ++ quoteJson "c"))
          ++ "," ++ (quoteJson "recent_memory" ++ ":" ++ quoteJson ""))
          ++ "," ++ (quoteJson "player_input" ++ ":" ++ quoteJson "look")) ++ "\x7d" := rfl
  rw [hdecomp]
  simp only [String.length_append]
  rw [quoteJson_bigA_length]
  show _ > 12000
  omega

/-- C2 counterexample: an oversized body (12044 serialized characters)
that is missing world_summary is answered 400 by the validator, not 413,
so the global cap does not apply "regardless of field-level validity" —
required-field validation runs first. -/
theorem c2_counterexample :
    (jsonStringify (Json.obj c2Body)).length > MAX_INPUT_CHARS
    ∧ (Part001.generate "B" [] c2Body cmBoom).response
        = ⟨400, [("error", Json.str "Missing field: world_summary")]⟩ := by
  refine ⟨c2Body_stringify_big, ?_⟩
  rw [Part001.generate_eq_400 "B" [] c2Body cmBoom "Missing field: world_summary" (by rfl)]

/-- C2 (amended): for every request that passes required-field and
scene_type validation and whose serialized body exceeds 12000
characters, both variants answer 413 "input too large" without touching
sessions or calling the model; the cap is computed on the raw
(unclamped) body, so it precedes field-level clamping. -/
theorem c2_sizeGuard :
    (∀ (bible : String) (sessions : Part001.Sessions) (body : List (String × Json))
        (cm : String → Except String (Option String)),
      Part001.validateGenerateBody body = none →
      (jsonStringify (Json.obj body)).length > MAX_INPUT_CHARS →
      Part001.generate bible sessions body cm
        = ⟨⟨413, [("error",
              Json.str "Input too large. Reduce world_summary/event_card/recent_memory.")]⟩,
            sessions, []⟩)
    ∧ (∀ (apiKey : Option String) (body : List (String × Json))
        (cm : String × String → Except String (Option String × Option Json)),
      Part000.validateGenerateBody body = none →
      (jsonStringify (Json.obj body)).length > MAX_INPUT_CHARS →
      Part000.generate apiKey body cm
        = (⟨413, [("error",
              Json.str "Input too large. Reduce world_summary/event_card/recent_memory.")]⟩,
            [])) := by
  constructor
  · intro bible sessions body cm hval hsize
    exact Part001.generate_eq_413 bible sessions body cm hval hsize
  · intro apiKey body cm hval hsize
    unfold Part000.generate
    simp only [hval, if_pos hsize]

/-- Witness for c2_sizeGuard: a fully valid body whose serialized form
has 12046 characters is answered 413 by both variants. -/
theorem c2_sizeGuard_witness :
    Part001.generate "B" [] c2ValidBody cmBoom
      = ⟨⟨413, [("error",
            Json.str "Input too large. Reduce world_summary/event_card/recent_memory.")]⟩,
          [], []⟩
    ∧ Part000.generate none c2ValidBody (fun _ => Except.error "x")
      = (⟨413, [("error",
            Json.str "Input too large. Reduce world_summary/event_card/recent_memory.")]⟩,
          []) :=
  ⟨c2_sizeGuard.1 "B" [] c2ValidBody cmBoom (by rfl) c2ValidBody_stringify_big,
   c2_sizeGuard.2 none c2ValidBody (fun _ => Except.error "x") (by rfl)
     c2ValidBody_stringify_big⟩

/-! ### Claim C3 -/

namespace Part001

theorem memOf_setSess_self (sessions : Sessions) (key : Json) (v : Session) :
    memOf (setSess sessions key v) key = v.recent_memory := by
  unfold memOf
  rw [lookupSess_setSess_self]
  rfl

theorem getSession_fst_memory (sessions : Sessions) (key : Json) :
    (getSession sessions key).1.recent_memory = memOf sessions key := by
  rw [getSession_fst]
  unfold memOf
  cases h : lookupSess sessions key <;> rfl

theorem appendTurn_of_nonempty (old tb : String) (h : old ≠ "") :
    appendTurn old tb = old ++ "\n\n" ++ tb := by
  unfold appendTurn
  have ht : jsTruthy (Json.str old) = true := by simp [jsTruthy, h]
  rw [if_pos ht]

end Part001

theorem take4000_bigMem (tb : String) :
    ((String.mk (List.replicate 4000 'a') ++ "\n\n" ++ tb).data).take 4000
      = List.replicate 4000 'a' := by
  rw [String.data_append, String.data_append,
    show (String.mk (List.replicate 4000 'a')).data = List.replicate 4000 'a' from rfl,
    List.append_assoc,
    List.take_append_of_le_length (by rw [List.length_replicate]),
    List.take_of_length_le (by rw [List.length_replicate])]

/-- C3 counterexample: a session already holding 4000 characters of
memory completes a successful turn, yet afterwards its memory equals the
OLD content exactly: truncation kept the oldest 4000 characters and
silently dropped the newly appended turn summary (the result text is
absent), contradicting "oldest content silently dropped". -/
theorem c3_counterexample :
    (Part001.generate "B" c3Store sampleBody cmGood).response.status = 200
    ∧ Part001.memOf (Part001.generate "B" c3Store sampleBody cmGood).sessions (Json.str "demo")
        = String.mk (List.replicate 4000 'a')
    ∧ ¬ List.IsInfix ("RESULT: T".data)
        ((Part001.memOf (Part001.generate "B" c3Store sampleBody cmGood).sessions
          (Json.str "demo")).data) := by
  have heq : Part001.generate "B" c3Store sampleBody cmGood
      = Part001.finishTurn (Part001.getSession c3Store (Part001.sessionIdOf sampleBody)).2
          (Part001.sessionIdOf sampleBody)
          (Part001.getSession c3Store (Part001.sessionIdOf sampleBody)).1
          (Part001.promptFor "B" c3Store sampleBody) sampleBody goodParsed := by
    rw [Part001.generate_eq_core "B" c3Store sampleBody cmGood (by rfl) (by decide),
      Part001.generateCore_eq_success "B" c3Store sampleBody cmGood (some goodRaw) goodParsed
        (by rfl) (by rfl) (by rfl) (by rfl)]
  have hsid : Part001.sessionIdOf sampleBody = Json.str "demo" := rfl
  have hRM : (Part001.getSession c3Store (Json.str "demo")).1.recent_memory
      = String.mk (List.replicate 4000 'a') := rfl
  have hne : String.mk (List.replicate 4000 'a') ≠ "" := by
    intro hcon
    have : (String.mk (List.replicate 4000 'a')).length = ("" : String).length := by rw [hcon]
    rw [show (String.mk (List.replicate 4000 'a')).length = 4000 by
      show (List.replicate 4000 'a').length = 4000; rw [List.length_replicate]] at this
    exact absurd this (by decide)
  have hmem : Part001.memOf (Part001.generate "B" c3Store sampleBody cmGood).sessions
      (Json.str "demo") = String.mk (List.replicate 4000 'a') := by
    rw [heq]
    unfold Part001.finishTurn
    simp only [hsid]
    rw [Part001.memOf_setSess_self, hRM, Part001.appendTurn_of_nonempty _ _ hne,
      clampString_str, take4000_bigMem]
  refine ⟨by rw [heq]; rfl, hmem, ?_⟩
  rw [hmem]
  intro hinf
  have hmemR : ('R' : Char) ∈ (String.mk (List.replicate 4000 'a')).data :=
    hinf.subset (by decide)
  have : ('R' : Char) ∈ List.replicate 4000 'a' := hmemR
  rw [List.mem_replicate] at this
  exact absurd this.2 (by decide)

/-- C3 (amended): after each successful turn the turn summary (player
input, result text, choices) is appended to the session's recent_memory
and the result re-clamped to at most 4000 characters; the truncation
keeps the first 4000 characters, silently dropping the NEWEST content
(the tail of the appended text); recent_memory never exceeds 4000
characters after any request when it did not before. -/
theorem c3_memory :
    (∀ (bible : String) (sessions : Part001.Sessions) (body : List (String × Json))
        (cm : String → Except String (Option String)) (content : Option String) (parsed : Json),
      Part001.validateGenerateBody body = none →
      ¬ (jsonStringify (Json.obj body)).length > MAX_INPUT_CHARS →
      cm (Part001.promptFor bible sessions body) = Except.ok content →
      Part001.tryParseModelJson (content.getD "") = some parsed →
      Part001.truthyTextOf parsed = true →
      Part001.choices3Of parsed = true →
      Part001.memOf (Part001.generate bible sessions body cm).sessions
          (Part001.sessionIdOf body)
        = String.mk ((Part001.appendTurn (Part001.memOf sessions (Part001.sessionIdOf body))
            (Part001.turnBlockOf
              (clampString ((jsGetObj body "player_input").getD Json.null) 2000)
              parsed)).data.take 4000))
    ∧ (∀ (bible : String) (sessions : Part001.Sessions) (body : List (String × Json))
        (cm : String → Except String (Option String)) (k : Json),
      (Part001.memOf sessions k).length ≤ 4000 →
      (Part001.memOf (Part001.generate bible sessions body cm).sessions k).length ≤ 4000) := by
  constructor
  · intro bible sessions body cm content parsed hval hsize hcm hparse htext hch
    rw [Part001.generate_eq_core bible sessions body cm hval hsize,
      Part001.generateCore_eq_success bible sessions body cm content parsed hcm hparse htext hch]
    unfold Part001.finishTurn
    simp only []
    rw [Part001.memOf_setSess_self, Part001.getSession_fst_memory, clampString_str]
  · intro bible sessions body cm k h
    rcases Part001.generate_sessions_shape bible sessions body cm with hsh | hsh | ⟨mem, hsh, hlen⟩
    · rw [hsh]
      exact h
    · rw [hsh, Part001.memOf_getSession_snd]
      exact h
    · rw [hsh]
      by_cases hk : k = Part001.sessionIdOf body
      · subst hk
        rw [Part001.memOf_setSess_self]
        exact hlen
      · unfold Part001.memOf
        rw [Part001.lookupSess_setSess_ne _ _ _ k hk]
        have hgs := Part001.memOf_getSession_snd sessions (Part001.sessionIdOf body) k
        unfold Part001.memOf at hgs
        rw [hgs]
        exact h

/-- Witness for c3_memory: a first turn on a fresh session stores the
clamped turn summary, and the 4000-character bound is preserved. -/
theorem c3_memory_witness :
    Part001.memOf (Part001.generate "B" [] sampleBody cmGood).sessions
        (Part001.sessionIdOf sampleBody)
      = String.mk ((Part001.appendTurn (Part001.memOf ([] : Part001.Sessions)
            (Part001.sessionIdOf sampleBody))
          (Part001.turnBlockOf
            (clampString ((jsGetObj sampleBody "player_input").getD Json.null) 2000)
            goodParsed)).data.take 4000)
    ∧ (Part001.memOf (Part001.generate "B" [] sampleBody cmGood).sessions
        (Json.str "demo")).length ≤ 4000 :=
  ⟨c3_memory.1 "B" [] sampleBody cmGood (some goodRaw) goodParsed (by decide) (by decide)
     (by rfl) (by rfl) (by rfl) (by rfl),
   c3_memory.2 "B" [] sampleBody cmGood (Json.str "demo") (by decide)⟩

/-! ### Claim C4 -/

theorem string_take_of_le (s : String) (n : Nat) (h : s.length ≤ n) :
    String.mk (s.data.take n) = s := by
  rw [List.take_of_length_le h, string_mk_data]

theorem jsTruthy_str_of_ne (s : String) (h : s ≠ "") : jsTruthy (Json.str s) = true := by
  simp [jsTruthy, h]

theorem jsOr_of_truthy (a b : Json) (h : jsTruthy a = true) : jsOr a b = a := by
  unfold jsOr
  rw [if_pos h]

namespace Part001

theorem turnBlockOf_length_pos (p : String) (parsed : Json) :
    0 < (turnBlockOf p parsed).length := by
  unfold turnBlockOf
  simp only [String.length_append]
  have h8 : ("PLAYER: " : String).length = 8 := rfl
  omega

theorem appendTurn_ne_empty (old tb : String) (h : 0 < tb.length) :
    appendTurn old tb ≠ "" := by
  intro hcon
  have hlen := congrArg String.length hcon
  unfold appendTurn at hlen
  rw [String.length_append] at hlen
  have h0 : ("" : String).length = 0 := rfl
  omega

theorem serverMemoryOf_eq (s : Session) (h : s.recent_memory ≠ "")
    (h2 : s.recent_memory.length ≤ 4000) :
    serverMemoryOf s = s.recent_memory := by
  unfold serverMemoryOf
  rw [jsOr_of_truthy _ _ (jsTruthy_str_of_ne _ h), clampString_str_of_le h2]

theorem promptFor_eq_of_session (bible : String) (sessions : Sessions)
    (body : List (String × Json)) (s : Session)
    (hs : (lookupSess sessions (sessionIdOf body)).getD freshSession = s)
    (hne : s.recent_memory ≠ "") (hlen : s.recent_memory.length ≤ 4000) :
    promptFor bible sessions body
      = buildPromptText bible (statsLineOf s.stats)
          (clampString ((jsGetObj body "world_summary").getD Json.null) 6000)
          (clampString ((jsGetObj body "event_card").getD Json.null) 5000)
          s.recent_memory
          (clampString ((jsGetObj body "player_input").getD Json.null) 2000) := by
  unfold promptFor
  rw [hs]
  simp only []
  rw [serverMemoryOf_eq s hne hlen, jsOr_of_truthy _ _ (jsTruthy_str_of_ne _ hne)]
  rfl

theorem generate_calls_eq (bible : String) (sessions : Sessions) (body : List (String × Json))
    (cm : String → Except String (Option String))
    (hval : validateGenerateBody body = none)
    (hsize : ¬ (jsonStringify (Json.obj body)).length > MAX_INPUT_CHARS) :
    (generate bible sessions body cm).calls = [promptFor bible sessions body] := by
  rw [generate_eq_core bible sessions body cm hval hsize]
  cases hcm : cm (promptFor bible sessions body) with
  | error e => rw [generateCore_eq_err bible sessions body cm e hcm]
  | ok content =>
    cases hparse : tryParseModelJson (content.getD "") with
    | none => rw [generateCore_eq_parseFail bible sessions body cm content hcm hparse]
    | some parsed =>
      cases htext : truthyTextOf parsed with
      | false =>
        rw [generateCore_eq_badShape bible sessions body cm content parsed hcm hparse
          (Or.inl htext)]
      | true =>
        cases hch : choices3Of parsed with
        | false =>
          rw [generateCore_eq_badShape bible sessions body cm content parsed hcm hparse
            (Or.inr hch)]
        | true =>
          rw [generateCore_eq_success bible sessions body cm content parsed hcm hparse htext hch]
          rfl

end Part001

theorem text_isInfix_turnBlock (p : String) (parsed : Json) :
    List.IsInfix (jsToString ((jsGetField parsed "text").getD Json.null)).data
      (Part001.turnBlockOf p parsed).data := by
  refine ⟨("PLAYER: " ++ p ++ "\nRESULT: ").data,
    ("\nCHOICES: " ++ jsJoin " | " (Part001.choicesListOf parsed)).data, ?_⟩
  unfold Part001.turnBlockOf
  simp [List.append_assoc]

theorem turnBlock_isInfix_appendTurn (old tb : String) :
    List.IsInfix tb.data (Part001.appendTurn old tb).data := by
  unfold Part001.appendTurn
  refine ⟨(if jsTruthy (Json.str old) then old ++ "\n\n" else "").data, [], ?_⟩
  simp

theorem mem_isInfix_prompt (bible statsLine world eventCard mem player : String) :
    List.IsInfix mem.data
      (Part001.buildPromptText bible statsLine world eventCard mem player).data := by
  refine ⟨(Part001.promptHead bible statsLine world eventCard).data,
    (Part001.promptTail player).data, ?_⟩
  unfold Part001.buildPromptText
  simp

/-- C4: after a successful first turn, a second request with the same
session identifier builds its prompt from the server-side stored memory:
provided the appended turn block survived the 4000-character re-clamp,
the prompt sent for the second request (which is exactly what the
handler passes to the completion call) contains the first turn's result
text inside its RECENT MEMORY section. -/
theorem c4_memory_carryover :
    ∀ (bible : String) (sessions : Part001.Sessions) (body1 body2 : List (String × Json))
      (cm1 cm2 : String → Except String (Option String)) (content : Option String)
      (parsed : Json),
      Part001.sessionIdOf body1 = Part001.sessionIdOf body2 →
      Part001.validateGenerateBody body1 = none →
      ¬ (jsonStringify (Json.obj body1)).length > MAX_INPUT_CHARS →
      cm1 (Part001.promptFor bible sessions body1) = Except.ok content →
      Part001.tryParseModelJson (content.getD "") = some parsed →
      Part001.truthyTextOf parsed = true →
      Part001.choices3Of parsed = true →
      (Part001.appendTurn (Part001.memOf sessions (Part001.sessionIdOf body1))
          (Part001.turnBlockOf
            (clampString ((jsGetObj body1 "player_input").getD Json.null) 2000)
            parsed)).length ≤ 4000 →
      Part001.validateGenerateBody body2 = none →
      ¬ (jsonStringify (Json.obj body2)).length > MAX_INPUT_CHARS →
      ((Part001.generate bible (Part001.generate bible sessions body1 cm1).sessions body2
          cm2).calls
        = [Part001.promptFor bible (Part001.generate bible sessions body1 cm1).sessions body2])
      ∧ List.IsInfix (jsToString ((jsGetField parsed "text").getD Json.null)).data
          (Part001.promptFor bible (Part001.generate bible sessions body1 cm1).sessions
            body2).data := by
  intro bible sessions body1 body2 cm1 cm2 content parsed hsid12 hval1 hsize1 hcm1 hparse
    htext hch hsurv hval2 hsize2
  have heq1 : Part001.generate bible sessions body1 cm1
      = Part001.finishTurn (Part001.getSession sessions (Part001.sessionIdOf body1)).2
          (Part001.sessionIdOf body1)
          (Part001.getSession sessions (Part001.sessionIdOf body1)).1
          (Part001.promptFor bible sessions body1) body1 parsed := by
    rw [Part001.generate_eq_core bible sessions body1 cm1 hval1 hsize1,
      Part001.generateCore_eq_success bible sessions body1 cm1 content parsed hcm1 hparse
        htext hch]
  have hs2 : (Part001.lookupSess (Part001.generate bible sessions body1 cm1).sessions
        (Part001.sessionIdOf body2)).getD Part001.freshSession
      = ⟨Part001.appendTurn (Part001.memOf sessions (Part001.sessionIdOf body1))
          (Part001.turnBlockOf
            (clampString ((jsGetObj body1 "player_input").getD Json.null) 2000) parsed),
         (Part001.getSession sessions (Part001.sessionIdOf body1)).1.stats⟩ := by
    rw [heq1, ← hsid12]
    unfold Part001.finishTurn
    simp only []
    rw [Part001.lookupSess_setSess_self, Part001.getSession_fst_memory, clampString_str,
      string_take_of_le _ _ hsurv]
    rfl
  have hne : Part001.appendTurn (Part001.memOf sessions (Part001.sessionIdOf body1))
      (Part001.turnBlockOf
        (clampString ((jsGetObj body1 "player_input").getD Json.null) 2000) parsed) ≠ "" :=
    Part001.appendTurn_ne_empty _ _ (Part001.turnBlockOf_length_pos _ _)
  have hprompt := Part001.promptFor_eq_of_session bible
    (Part001.generate bible sessions body1 cm1).sessions body2 _ hs2 hne hsurv
  refine ⟨Part001.generate_calls_eq bible _ body2 cm2 hval2 hsize2, ?_⟩
  rw [hprompt]
  exact ((text_isInfix_turnBlock _ parsed).trans
    (turnBlock_isInfix_appendTurn _ _)).trans (mem_isInfix_prompt _ _ _ _ _ _)

/-- Witness for c4_memory_carryover: two sequential requests on the
default session; the second prompt is the one sent and contains the
first result text "T". -/
theorem c4_memory_carryover_witness :
    ((Part001.generate "B" (Part001.generate "B" [] sampleBody cmGood).sessions sampleBody
        cmGood).calls
      = [Part001.promptFor "B" (Part001.generate "B" [] sampleBody cmGood).sessions sampleBody])
    ∧ List.IsInfix (jsToString ((jsGetField goodParsed "text").getD Json.null)).data
        (Part001.promptFor "B" (Part001.generate "B" [] sampleBody cmGood).sessions
          sampleBody).data :=
  c4_memory_carryover "B" [] sampleBody sampleBody cmGood cmGood (some goodRaw) goodParsed
    rfl (by decide) (by decide) (by rfl) (by rfl) (by rfl) (by rfl) (by decide)
    (by decide) (by decide)

end Diverge
